import Mathlib

/-!
# Availability sync reconciliation engine — shallow embedding

This file embeds `src/server/lib/availabilitySync.ts` (class `AvailabilitySync`)
as pure Lean functions and proves properties of the per-item reconciliation
pipeline: the existence aggregator (`mediaExistsInPlex`, `mediaExistsInRadarr`,
`mediaExistsInSonarr`, `seasonExistsInPlex`, `seasonExistsInSonarr`), the
status-transition engine (`findMediaStatus`, `mediaUpdater`, `seasonUpdater`)
and the per-item portion of `run()` (the movie branch, lines 59-93, and the
tv branch, lines 97-203).

Modelling conventions:
* External probes are functions into a three-valued `Probe` result:
  `found` (a successful response), `notFound` (an HTTP-404 error, the only
  error whose message contains `'404'`) and `transient` (any other thrown
  error).  This mirrors the `catch (ex) { if (!ex.message.includes('404')) ... }`
  pattern used at every call site.
* The database is a `Db` value holding the persisted media row, the media
  request rows joined to it and the season request rows.  `repository.save`
  replaces the stored row by the in-memory object, `repository.update`
  changes only the named columns, `repository.remove` deletes the listed rows.
  Persistence never fails in the model (the claims under study are about
  probe errors, not store errors).
* JavaScript `Record<number, boolean>` season maps are modelled as total
  functions `Nat → Bool`; an absent key reads back as `undefined`, which every
  use site coerces to `false`, so the default-`false` total function is
  observationally identical.
* `media.seasons = [...media.seasons, season]` appends an alias of the season
  object that was just mutated in place; the stored list therefore holds the
  mutated season (twice, under the same primary key).  The model writes the
  processed prefix `pre ++ s' :: rest`, which stores exactly the same season
  statuses per season number.
* Logging calls are side-effect free and are omitted.
-/

/-- `MediaStatus` from `@server/constants/media`. -/
inductive MediaStatus where
  | UNKNOWN
  | PENDING
  | PROCESSING
  | PARTIALLY_AVAILABLE
  | AVAILABLE
deriving DecidableEq, Repr

/-- `MediaRequestStatus` from `@server/constants/media`. -/
inductive MediaRequestStatus where
  | PENDING
  | APPROVED
  | DECLINED
deriving DecidableEq, Repr

/-- `media.mediaType` is `'movie' | 'tv'`. -/
inductive MediaType where
  | movie
  | tv
deriving DecidableEq, Repr

/-- A season row of a `Media` entity: season number plus the two tier statuses. -/
structure Season where
  seasonNumber : Nat
  status : MediaStatus
  status4k : MediaStatus
deriving DecidableEq, Repr

/-- The `Media` entity fields read or written by the sync engine. -/
structure Media where
  id : Nat
  mediaType : MediaType
  tmdbId : Nat
  status : MediaStatus
  status4k : MediaStatus
  ratingKey : Option String
  ratingKey4k : Option String
  serviceId : Option Nat
  serviceId4k : Option Nat
  externalServiceId : Option Nat
  externalServiceId4k : Option Nat
  externalServiceSlug : Option String
  externalServiceSlug4k : Option String
  seasons : List Season
deriving DecidableEq, Repr

/-- A `MediaRequest` row joined to a media item (`request.media.id = mediaId`). -/
structure MediaRequest where
  id : Nat
  mediaId : Nat
  is4k : Bool
  status : MediaRequestStatus
deriving DecidableEq, Repr

/-- A `SeasonRequest` row; `is4k` comes from the owning `MediaRequest`. -/
structure SeasonRequest where
  id : Nat
  mediaId : Nat
  is4k : Bool
  seasonNumber : Nat
deriving DecidableEq, Repr

/-- Result of one remote probe: a successful payload, an error whose message
contains `'404'`, or any other thrown error. -/
inductive Probe (α : Type) where
  | found : α → Probe α
  | notFound
  | transient
deriving DecidableEq, Repr

/-- A Sonarr season entry: `{ seasonNumber, statistics?: { episodeFileCount? } }`.
Only the episode-file count is consulted, so `statistics?.episodeFileCount`
is collapsed to one optional field. -/
structure SonarrSeason where
  seasonNumber : Nat
  episodeFileCount : Option Nat
deriving DecidableEq, Repr

/-- The Sonarr series payload used by the engine. -/
structure SonarrSeries where
  episodeFileCount : Nat
  seasons : List SonarrSeason
deriving DecidableEq, Repr

/-- A configured (sync-enabled) Radarr server; `getMovie` yields `hasFile`. -/
structure RadarrServer where
  is4k : Bool
  getMovie : Nat → Probe Bool

/-- A configured (sync-enabled) Sonarr server. -/
structure SonarrServer where
  is4k : Bool
  getSeriesById : Nat → Probe SonarrSeries

/-- The Plex client; `getChildrenMetadata` yields the children's `index` values. -/
structure PlexClient where
  getMetadata : String → Probe Unit
  getChildrenMetadata : String → Probe (List Nat)

/-- The external collaborators of one run: `this.plexClient` (absent when no
admin is configured), `this.radarrServers` and `this.sonarrServers`. -/
structure Env where
  plexClient : Option PlexClient
  radarrServers : List RadarrServer
  sonarrServers : List SonarrServer

/-- `this.plexSeasonsCache`, keyed by rating key. -/
def PlexCache : Type := String → Option (List Nat)

/-- `this.sonarrSeasonsCache`, keyed by `` `${is4k ? 1 : 0}-${externalServiceId}` ``. -/
def SonarrCache : Type := Bool × Nat → Option (List SonarrSeason)

/-- Point update of a Plex season cache entry. -/
def PlexCache.insert (c : PlexCache) (k : String) (v : Option (List Nat)) : PlexCache :=
  fun k' => if k' = k then v else c k'

/-- Point update of a Sonarr season cache entry. -/
def SonarrCache.insert (c : SonarrCache) (k : Bool × Nat) (v : List SonarrSeason) :
    SonarrCache :=
  fun k' => if k' = k then some v else c k'

/-- The repeated guard `s === MediaStatus.AVAILABLE || s === MediaStatus.PARTIALLY_AVAILABLE`. -/
def isAvailableStatus : MediaStatus → Bool
  | .AVAILABLE => true
  | .PARTIALLY_AVAILABLE => true
  | _ => false

/-- The persisted state around one media item: the media row itself, its
joined `MediaRequest` rows and its `SeasonRequest` rows. -/
structure Db where
  media : Media
  requests : List MediaRequest
  seasonRequests : List SeasonRequest
deriving Repr

/-! ## `findMediaStatus` (lines 244-271) -/

/-- `AvailabilitySync.findMediaStatus`: filter the joined requests by tier,
then APPROVED ⇒ PROCESSING, else PENDING ⇒ PENDING, else UNKNOWN. -/
def findMediaStatus (requests : List MediaRequest) (is4k : Bool) : MediaStatus :=
  let filteredRequests := requests.filter (fun r => r.is4k = is4k)
  if filteredRequests.any (fun r => r.status = MediaRequestStatus.APPROVED) then
    MediaStatus.PROCESSING
  else if filteredRequests.any (fun r => r.status = MediaRequestStatus.PENDING) then
    MediaStatus.PENDING
  else
    MediaStatus.UNKNOWN

/-! ## `mediaExistsInRadarr` (lines 521-580) -/

/-- One iteration of the Radarr server loop: the non-4K try block (lines
532-553) followed by the 4K try block (lines 555-576).  `transient` errors
set the tier's existence flag (fail-safe); `notFound` is ignored. -/
def radarrStep (m : Media) (st : Bool × Bool) (server : RadarrServer) : Bool × Bool :=
  let st1 :=
    if !server.is4k then
      match m.externalServiceId with
      | some id =>
        match server.getMovie id with
        | .found hasFile => (st.1 || hasFile, st.2)
        | .notFound => st
        | .transient => (true, st.2)
      | none => st
    else st
  if server.is4k then
    match m.externalServiceId4k with
    | some id =>
      match server.getMovie id with
      | .found hasFile => (st1.1, st1.2 || hasFile)
      | .notFound => st1
      | .transient => (st1.1, true)
    | none => st1
  else st1

/-- `AvailabilitySync.mediaExistsInRadarr`: fold the server loop starting from
`[false, false]`. -/
def mediaExistsInRadarr (servers : List RadarrServer) (m : Media) : Bool × Bool :=
  servers.foldl (radarrStep m) (false, false)

/-! ## `mediaExistsInSonarr` / `seasonExistsInSonarr` (lines 582-731) -/

/-- Accumulator of the Sonarr server loop: the two existence flags, the two
`preventSeasonSearch` flags and the season cache. -/
structure SonarrState where
  existsInSonarr : Bool
  existsInSonarr4k : Bool
  preventSeasonSearch : Bool
  preventSeasonSearch4k : Bool
  cache : SonarrCache

/-- One iteration of the Sonarr server loop: the non-4K try block (lines
598-620) followed by the 4K try block (lines 622-646).  A successful fetch
first writes the seasons cache, then ORs `episodeFileCount > 0` into the
existence flag; a `transient` error sets both the existence flag and the
prevent flag for that tier. -/
def sonarrStep (m : Media) (st : SonarrState) (server : SonarrServer) : SonarrState :=
  let st1 :=
    if !server.is4k then
      match m.externalServiceId with
      | some id =>
        match server.getSeriesById id with
        | .found ser =>
          { st with
            cache := st.cache.insert (false, id) ser.seasons
            existsInSonarr := st.existsInSonarr || decide (ser.episodeFileCount > 0) }
        | .notFound => st
        | .transient =>
          { st with existsInSonarr := true, preventSeasonSearch := true }
      | none => st
    else st
  if server.is4k then
    match m.externalServiceId4k with
    | some id =>
      match server.getSeriesById id with
      | .found ser =>
        { st1 with
          cache := st1.cache.insert (true, id) ser.seasons
          existsInSonarr4k := st1.existsInSonarr4k || decide (ser.episodeFileCount > 0) }
      | .notFound => st1
      | .transient =>
        { st1 with existsInSonarr4k := true, preventSeasonSearch4k := true }
    | none => st1
  else st1

/-- The Sonarr server loop of `mediaExistsInSonarr` (lines 592-647). -/
def sonarrPass (servers : List SonarrServer) (sc : SonarrCache) (m : Media) : SonarrState :=
  servers.foldl (sonarrStep m)
    { existsInSonarr := false, existsInSonarr4k := false
      preventSeasonSearch := false, preventSeasonSearch4k := false, cache := sc }

/-- `AvailabilitySync.seasonExistsInSonarr` (lines 679-731): per tier, when the
external id is present and the season's tier status is available, the season
exists if the cached season list has an entry with a positive episode-file
count, or unconditionally under the tier's prevent flag. -/
def seasonExistsInSonarr (m : Media) (season : Season)
    (preventSeasonSearch preventSeasonSearch4k : Bool) (cache : SonarrCache) :
    Bool × Bool :=
  let seasonExists :=
    match m.externalServiceId with
    | some id =>
      if isAvailableStatus season.status then
        let sonarrSeasons := cache (false, id)
        let seasonIsAvailable :=
          (sonarrSeasons.getD []).any
            (fun s => season.seasonNumber = s.seasonNumber &&
              (s.episodeFileCount.getD 0 > 0 : Bool))
        (seasonIsAvailable && sonarrSeasons.isSome) || preventSeasonSearch
      else false
    | none => false
  let seasonExists4k :=
    match m.externalServiceId4k with
    | some id =>
      if isAvailableStatus season.status4k then
        let sonarrSeasons4k := cache (true, id)
        let seasonIsAvailable4k :=
          (sonarrSeasons4k.getD []).any
            (fun s => season.seasonNumber = s.seasonNumber &&
              (s.episodeFileCount.getD 0 > 0 : Bool))
        (seasonIsAvailable4k && sonarrSeasons4k.isSome) || preventSeasonSearch4k
      else false
    | none => false
  (seasonExists, seasonExists4k)

/-- Build the two `Record<number, boolean>` season maps by assigning
`map[season.seasonNumber]` for each season in order (later assignments of a
repeated number overwrite earlier ones, as in the source loops). -/
def buildSeasonMaps (g : Season → Bool × Bool) :
    List Season → (Nat → Bool) × (Nat → Bool) → (Nat → Bool) × (Nat → Bool)
  | [], maps => maps
  | s :: rest, (m1, m2) =>
    let v := g s
    buildSeasonMaps g rest
      (fun n => if n = s.seasonNumber then v.1 else m1 n,
       fun n => if n = s.seasonNumber then v.2 else m2 n)

/-- Result of `mediaExistsInSonarr`: the returned quadruple plus the final
prevent flags and cache (locals of the source function, exposed for
specification purposes). -/
structure SonarrResult where
  existsInSonarr : Bool
  existsInSonarr4k : Bool
  seasonMap : Nat → Bool
  seasonMap4k : Nat → Bool
  preventSeasonSearch : Bool
  preventSeasonSearch4k : Bool
  cache : SonarrCache

/-- `AvailabilitySync.mediaExistsInSonarr` (lines 582-677): run the server
loop, then populate the per-season maps unless **both** prevent flags are set
(`if (!preventSeasonSearch || !preventSeasonSearch4k)`, line 657). -/
def mediaExistsInSonarr (servers : List SonarrServer) (sc : SonarrCache) (m : Media) :
    SonarrResult :=
  let st := sonarrPass servers sc m
  let maps :=
    if !st.preventSeasonSearch || !st.preventSeasonSearch4k then
      buildSeasonMaps
        (fun s => seasonExistsInSonarr m s st.preventSeasonSearch
          st.preventSeasonSearch4k st.cache)
        m.seasons (fun _ => false, fun _ => false)
    else (fun _ => false, fun _ => false)
  { existsInSonarr := st.existsInSonarr
    existsInSonarr4k := st.existsInSonarr4k
    seasonMap := maps.1
    seasonMap4k := maps.2
    preventSeasonSearch := st.preventSeasonSearch
    preventSeasonSearch4k := st.preventSeasonSearch4k
    cache := st.cache }

/-! ## `mediaExistsInPlex` / `seasonExistsInPlex` (lines 733-873) -/

/-- One guarded Plex try block (lines 745-772 and 774-801): when a rating key
is stored, fetch the metadata and (for tv) the children.  Returns
`(existsFlag, preventFlag, cache)`.  When the metadata fetch succeeds but the
children fetch throws a 404, `plexMedia` is set but the `if (plexMedia)` line
is never reached, so the exists flag stays `false`; with no client configured
the optional calls yield `undefined`, the cache entry is assigned `undefined`
and the flag stays `false`. -/
def plexTry (client : Option PlexClient) (isTv : Bool) (ratingKey : Option String)
    (cache : PlexCache) : Bool × Bool × PlexCache :=
  match ratingKey with
  | none => (false, false, cache)
  | some rk =>
    match client with
    | none =>
      if isTv then (false, false, cache.insert rk none) else (false, false, cache)
    | some c =>
      match c.getMetadata rk with
      | .transient => (true, true, cache)
      | .notFound => (false, false, cache)
      | .found _ =>
        if isTv then
          match c.getChildrenMetadata rk with
          | .transient => (true, true, cache)
          | .notFound => (false, false, cache)
          | .found children => (true, false, cache.insert rk (some children))
        else (true, false, cache)

/-- `AvailabilitySync.seasonExistsInPlex` (lines 832-873): per tier, when a
rating key is stored and the season's tier status is available, the season
exists if the cached children list contains its season number, or
unconditionally under the tier's prevent flag. -/
def seasonExistsInPlex (m : Media) (season : Season)
    (preventSeasonSearch preventSeasonSearch4k : Bool) (cache : PlexCache) :
    Bool × Bool :=
  let seasonExistsInPlexVal :=
    match m.ratingKey with
    | some rk =>
      if isAvailableStatus season.status then
        ((cache rk).getD []).any (fun idx => idx = season.seasonNumber) ||
          preventSeasonSearch
      else false
    | none => false
  let seasonExistsInPlex4kVal :=
    match m.ratingKey4k with
    | some rk =>
      if isAvailableStatus season.status4k then
        ((cache rk).getD []).any (fun idx => idx = season.seasonNumber) ||
          preventSeasonSearch4k
      else false
    | none => false
  (seasonExistsInPlexVal, seasonExistsInPlex4kVal)

/-- Result of `mediaExistsInPlex` with its locals exposed.  For a movie the
source returns only the two booleans; the maps below are then the untouched
empty records. -/
structure PlexResult where
  existsInPlex : Bool
  existsInPlex4k : Bool
  seasonMap : Nat → Bool
  seasonMap4k : Nat → Bool
  preventSeasonSearch : Bool
  preventSeasonSearch4k : Bool
  cache : PlexCache

/-- `AvailabilitySync.mediaExistsInPlex` (lines 733-830): the two tier try
blocks, then (tv only) populate the per-season maps unless both prevent
flags are set (line 815). -/
def mediaExistsInPlex (client : Option PlexClient) (pc : PlexCache) (m : Media) :
    PlexResult :=
  let isTv := m.mediaType = MediaType.tv
  let r1 := plexTry client isTv m.ratingKey pc
  let r2 := plexTry client isTv m.ratingKey4k r1.2.2
  if m.mediaType = MediaType.movie then
    { existsInPlex := r1.1, existsInPlex4k := r2.1
      seasonMap := fun _ => false, seasonMap4k := fun _ => false
      preventSeasonSearch := r1.2.1, preventSeasonSearch4k := r2.2.1
      cache := r2.2.2 }
  else
    let maps :=
      if !r1.2.1 || !r2.2.1 then
        buildSeasonMaps
          (fun s => seasonExistsInPlex m s r1.2.1 r2.2.1 r2.2.2)
          m.seasons (fun _ => false, fun _ => false)
      else (fun _ => false, fun _ => false)
    { existsInPlex := r1.1, existsInPlex4k := r2.1
      seasonMap := maps.1, seasonMap4k := maps.2
      preventSeasonSearch := r1.2.1, preventSeasonSearch4k := r2.2.1
      cache := r2.2.2 }

/-! ## `mediaUpdater` (lines 273-393) -/

/-- Outcome of `mediaUpdater`: the mutated in-memory media, the database
after the save / removals, and the removed request rows. -/
structure UpdateResult where
  mem : Media
  db : Db
  deletedRequests : List MediaRequest
deriving Repr

/-- The request-join filter of lines 284-299: requests of this media whose
tier matches a currently available status **of the stored media row**. -/
def joinedRequests (db : Db) (mediaId : Nat) : List MediaRequest :=
  db.requests.filter (fun r => r.mediaId = mediaId &&
    ((!r.is4k && isAvailableStatus db.media.status) ||
     (r.is4k && isAvailableStatus db.media.status4k)))

/-- `AvailabilitySync.mediaUpdater` (lines 273-393).  Note two source
peculiarities kept verbatim: the next statuses are only recomputed for tv
(movies keep `UNKNOWN`, lines 308-316), and **both** reference-clearing
blocks compare `mediaStatus` — the non-4K next status — against
`PROCESSING` (lines 325-335 and 352-363), including the 4K block. -/
def mediaUpdater (m : Media) (db : Db) (mediaExists mediaExists4k : Bool) :
    UpdateResult :=
  let requests := joinedRequests db m.id
  let mediaStatus :=
    if m.mediaType = MediaType.tv && !mediaExists then findMediaStatus requests false
    else MediaStatus.UNKNOWN
  let mediaStatus4k :=
    if m.mediaType = MediaType.tv && !mediaExists4k then findMediaStatus requests true
    else MediaStatus.UNKNOWN
  let m1 :=
    if isAvailableStatus m.status && !mediaExists then
      { m with
        status := mediaStatus
        serviceId := if mediaStatus = MediaStatus.PROCESSING then m.serviceId else none
        externalServiceId :=
          if mediaStatus = MediaStatus.PROCESSING then m.externalServiceId else none
        externalServiceSlug :=
          if mediaStatus = MediaStatus.PROCESSING then m.externalServiceSlug else none
        ratingKey := if mediaStatus = MediaStatus.PROCESSING then m.ratingKey else none }
    else m
  let m2 :=
    if isAvailableStatus m1.status4k && !mediaExists4k then
      { m1 with
        status4k := mediaStatus4k
        serviceId4k := if mediaStatus = MediaStatus.PROCESSING then m1.serviceId4k else none
        externalServiceId4k :=
          if mediaStatus = MediaStatus.PROCESSING then m1.externalServiceId4k else none
        externalServiceSlug4k :=
          if mediaStatus = MediaStatus.PROCESSING then m1.externalServiceSlug4k else none
        ratingKey4k := if mediaStatus = MediaStatus.PROCESSING then m1.ratingKey4k else none }
    else m1
  let db1 := { db with media := m2 }
  if !requests.isEmpty && m.mediaType = MediaType.movie then
    { mem := m2
      db := { db1 with requests := db1.requests.filter (fun r => !requests.contains r) }
      deletedRequests := requests }
  else
    { mem := m2, db := db1, deletedRequests := [] }

/-! ## `seasonUpdater` (lines 395-519) -/

/-- `AvailabilitySync.seasonUpdater` (lines 395-519) for the season `s`
sitting between the already-processed seasons `pre` and the remaining
seasons `rest` of `m.seasons`.  Returns the mutated season, the database
after any save / cascade / removals, and the removed season-request rows. -/
def seasonUpdater (m : Media) (pre : List Season) (s : Season) (rest : List Season)
    (db : Db) (seasonExistsIn seasonExistsIn4k : Bool) :
    Season × Db × List SeasonRequest :=
  let seasonRequests := db.seasonRequests.filter
    (fun sr => sr.mediaId = m.id && sr.seasonNumber = s.seasonNumber)
  let filteredSeasonRequests := seasonRequests.filter
    (fun sr =>
      (!sr.is4k && !seasonExistsIn && isAvailableStatus s.status) ||
      (sr.is4k && !seasonExistsIn4k && isAvailableStatus s.status4k))
  -- lines 439-450
  let p1 : Season × Bool :=
    if isAvailableStatus s.status && !seasonExistsIn then
      ({ s with status := MediaStatus.UNKNOWN }, true)
    else (s, false)
  -- lines 452-463
  let p2 : Season × Bool :=
    if isAvailableStatus p1.1.status4k && !seasonExistsIn4k then
      ({ p1.1 with status4k := MediaStatus.UNKNOWN }, true)
    else p1
  -- lines 465-480 (re-checks on the already-mutated season object)
  let p3 : Season × Bool :=
    if !seasonExistsIn && !seasonExistsIn4k then
      let q1 : Season × Bool :=
        if isAvailableStatus p2.1.status then
          ({ p2.1 with status := MediaStatus.UNKNOWN }, true)
        else p2
      if isAvailableStatus q1.1.status4k then
        ({ q1.1 with status4k := MediaStatus.UNKNOWN }, true)
      else q1
    else p2
  if p3.2 then
    -- lines 482-484: append the mutated season and save the whole record
    let savedMedia := { m with seasons := pre ++ p3.1 :: rest }
    let db1 := { db with media := savedMedia }
    -- lines 486-494: non-4K parent cascade via `update`
    let db2 :=
      if m.status = MediaStatus.AVAILABLE && !seasonExistsIn then
        { db1 with media := { db1.media with status := MediaStatus.PARTIALLY_AVAILABLE } }
      else db1
    -- lines 496-504: 4K parent cascade via `update`
    let db3 :=
      if m.status4k = MediaStatus.AVAILABLE && !seasonExistsIn4k then
        { db2 with media := { db2.media with status4k := MediaStatus.PARTIALLY_AVAILABLE } }
      else db2
    -- lines 506-508
    if !filteredSeasonRequests.isEmpty then
      (p3.1,
       { db3 with seasonRequests :=
          db3.seasonRequests.filter (fun sr => !filteredSeasonRequests.contains sr) },
       filteredSeasonRequests)
    else (p3.1, db3, [])
  else (p3.1, db, [])

/-! ## The per-item portion of `run()` (lines 51-204) -/

/-- The aggregated movie verdicts of lines 60-85:
`movieExists = existsInPlex || existsInRadarr`, and the 4K analogue. -/
def movieVerdicts (env : Env) (pc : PlexCache) (m : Media) : Bool × Bool :=
  let pr := mediaExistsInPlex env.plexClient pc m
  let rr := mediaExistsInRadarr env.radarrServers m
  (pr.existsInPlex || rr.1, pr.existsInPlex4k || rr.2)

/-- The aggregated show data of lines 106-174: the two show verdicts and the
merged per-season maps `seasonMap[n] = existsInPlexMap[n] || existsInSonarrMap[n]`. -/
structure TvAggregate where
  showExists : Bool
  showExists4k : Bool
  seasonMap : Nat → Bool
  seasonMap4k : Nat → Bool
deriving Inhabited

/-- Compute the tv aggregation of lines 106-174 (Plex probes, Sonarr probes,
show-level ORs, and the merged season maps). -/
def tvAggregate (env : Env) (pc : PlexCache) (sc : SonarrCache) (m : Media) :
    TvAggregate :=
  let pr := mediaExistsInPlex env.plexClient pc m
  let sr := mediaExistsInSonarr env.sonarrServers sc m
  { showExists := pr.existsInPlex || sr.existsInSonarr
    showExists4k := pr.existsInPlex4k || sr.existsInSonarr4k
    seasonMap := fun n => pr.seasonMap n || sr.seasonMap n
    seasonMap4k := fun n => pr.seasonMap4k n || sr.seasonMap4k n }

/-- Outcome of processing a single media item: the final in-memory media, the
final database state, and the removed request rows. -/
structure RunResult where
  mem : Media
  db : Db
  deletedRequests : List MediaRequest
  deletedSeasonRequests : List SeasonRequest
deriving Repr

/-- The season loop of lines 145-191: for each season (in order) combine the
two source maps and, under the gate of lines 176-183, invoke `seasonUpdater`.
The gate's second disjunct tests `season.status` — the non-4K status — next
to the 4K map (line 181), exactly as in the source. -/
def seasonLoop (agg : TvAggregate) (m : Media) :
    List Season → List Season → Db → List SeasonRequest →
      List Season × Db × List SeasonRequest
  | pre, [], db, del => (pre, db, del)
  | pre, s :: rest, db, del =>
    let sx := agg.seasonMap s.seasonNumber
    let sx4 := agg.seasonMap4k s.seasonNumber
    if (!sx && isAvailableStatus s.status) || (!sx4 && isAvailableStatus s.status) then
      let r := seasonUpdater m pre s rest db sx sx4
      seasonLoop agg m (pre ++ [r.1]) rest r.2.1 (del ++ r.2.2)
    else
      seasonLoop agg m (pre ++ [s]) rest db del

/-- The tv branch of the run loop (lines 97-203): aggregate, process every
season, then under the gate of lines 193-200 invoke `mediaUpdater` on the
item (whose in-memory seasons now include the mutated ones). -/
def processTv (env : Env) (pc : PlexCache) (sc : SonarrCache) (db : Db) : RunResult :=
  let m := db.media
  let agg := tvAggregate env pc sc m
  let r := seasonLoop agg m [] m.seasons db []
  let mCur := { m with seasons := r.1 }
  if (!agg.showExists && isAvailableStatus mCur.status) ||
     (!agg.showExists4k && isAvailableStatus mCur.status4k) then
    let u := mediaUpdater mCur r.2.1 agg.showExists agg.showExists4k
    { mem := u.mem, db := u.db, deletedRequests := u.deletedRequests
      deletedSeasonRequests := r.2.2 }
  else
    { mem := mCur, db := r.2.1, deletedRequests := []
      deletedSeasonRequests := r.2.2 }

/-- The movie branch of the run loop (lines 59-93): aggregate, then under the
gate of lines 87-90 (which tests `=== AVAILABLE` only) invoke `mediaUpdater`. -/
def processMovie (env : Env) (pc : PlexCache) (db : Db) : RunResult :=
  let m := db.media
  let v := movieVerdicts env pc m
  if (!v.1 && m.status = MediaStatus.AVAILABLE) ||
     (!v.2 && m.status4k = MediaStatus.AVAILABLE) then
    let u := mediaUpdater m db v.1 v.2
    { mem := u.mem, db := u.db, deletedRequests := u.deletedRequests
      deletedSeasonRequests := [] }
  else
    { mem := m, db := db, deletedRequests := [], deletedSeasonRequests := [] }

/-- One iteration of the item loop of `run()` for a single media item, with
the per-run caches `pc` and `sc` as they stand when the item is reached. -/
def processMedia (env : Env) (pc : PlexCache) (sc : SonarrCache) (db : Db) : RunResult :=
  match db.media.mediaType with
  | MediaType.movie => processMovie env pc db
  | MediaType.tv => processTv env pc sc db

/-- The aggregated per-item existence verdict for each tier, as the run loop
computes it before deciding on a status transition. -/
def itemVerdicts (env : Env) (pc : PlexCache) (sc : SonarrCache) (m : Media) :
    Bool × Bool :=
  match m.mediaType with
  | MediaType.movie => movieVerdicts env pc m
  | MediaType.tv =>
    let agg := tvAggregate env pc sc m
    (agg.showExists, agg.showExists4k)

/-- Tier selector: `false` is the non-4K tier, `true` the 4K tier. -/
def Media.tierStatus (m : Media) (t : Bool) : MediaStatus :=
  if t then m.status4k else m.status

/-- Tier selector on a season. -/
def Season.tierStatus (s : Season) (t : Bool) : MediaStatus :=
  if t then s.status4k else s.status

/-- Tier projection of a verdict pair. -/
def tierOf (v : Bool × Bool) (t : Bool) : Bool :=
  if t then v.2 else v.1

/-- The empty per-run Plex cache (`this.plexSeasonsCache = {}`). -/
def emptyPlexCache : PlexCache := fun _ => none

/-- The empty per-run Sonarr cache (`this.sonarrSeasonsCache = {}`). -/
def emptySonarrCache : SonarrCache := fun _ => none

/-! ## Basic lemmas -/

/-- `findMediaStatus` only ever yields UNKNOWN, PENDING or PROCESSING. -/
theorem findMediaStatus_mem (requests : List MediaRequest) (is4k : Bool) :
    findMediaStatus requests is4k = MediaStatus.UNKNOWN ∨
    findMediaStatus requests is4k = MediaStatus.PENDING ∨
    findMediaStatus requests is4k = MediaStatus.PROCESSING := by
  simp only [findMediaStatus]
  split
  · exact Or.inr (Or.inr rfl)
  · split
    · exact Or.inr (Or.inl rfl)
    · exact Or.inl rfl

/-- The in-memory media produced by `mediaUpdater` is exactly the stored one. -/
theorem mediaUpdater_mem_eq_db (m : Media) (db : Db) (e e4 : Bool) :
    (mediaUpdater m db e e4).db.media = (mediaUpdater m db e e4).mem := by
  simp only [mediaUpdater]
  repeat' split
  all_goals rfl

/-- `mediaUpdater` does not touch the season list of the media object. -/
theorem mediaUpdater_seasons (m : Media) (db : Db) (e e4 : Bool) :
    (mediaUpdater m db e e4).mem.seasons = m.seasons := by
  simp only [mediaUpdater]
  repeat' split
  all_goals rfl

/-- When the non-4K status is available and the non-4K verdict is false,
`mediaUpdater` writes the request-derived next status into the non-4K tier. -/
theorem mediaUpdater_status_downgrade (m : Media) (db : Db) (e e4 : Bool)
    (ha : isAvailableStatus m.status = true) (he : e = false) :
    (mediaUpdater m db e e4).mem.status =
      (if m.mediaType = MediaType.tv && !e then
        findMediaStatus (joinedRequests db m.id) false
       else MediaStatus.UNKNOWN) := by
  subst he
  simp only [mediaUpdater, ha]
  repeat' split
  all_goals simp_all

/-- When the 4K status is available and the 4K verdict is false,
`mediaUpdater` writes the request-derived 4K next status into the 4K tier. -/
theorem mediaUpdater_status4k_downgrade (m : Media) (db : Db) (e e4 : Bool)
    (ha : isAvailableStatus m.status4k = true) (he : e4 = false) :
    (mediaUpdater m db e e4).mem.status4k =
      (if m.mediaType = MediaType.tv && !e4 then
        findMediaStatus (joinedRequests db m.id) true
       else MediaStatus.UNKNOWN) := by
  subst he
  simp only [mediaUpdater, ha]
  repeat' split
  all_goals simp_all

/-- When the non-4K status is untouched (`mediaExists` true or not available),
the non-4K status is preserved by `mediaUpdater`. -/
theorem mediaUpdater_status_preserved (m : Media) (db : Db) (e e4 : Bool)
    (h : isAvailableStatus m.status = false ∨ e = true) :
    (mediaUpdater m db e e4).mem.status = m.status := by
  simp only [mediaUpdater]
  repeat' split
  all_goals simp_all

/-- When the 4K status is untouched, it is preserved by `mediaUpdater`. -/
theorem mediaUpdater_status4k_preserved (m : Media) (db : Db) (e e4 : Bool)
    (h : isAvailableStatus m.status4k = false ∨ e4 = true) :
    (mediaUpdater m db e e4).mem.status4k = m.status4k := by
  simp only [mediaUpdater]
  repeat' split
  all_goals simp_all

/-- A Radarr iteration cannot set the non-4K flag when no non-4K external id
is stored (the probe is skipped). -/
theorem radarrStep_fst_none (m : Media) (st : Bool × Bool) (server : RadarrServer)
    (hid : m.externalServiceId = none) :
    (radarrStep m st server).1 = st.1 := by
  simp only [radarrStep, hid]
  repeat' split
  all_goals rfl

/-- A Radarr iteration cannot set the 4K flag when no 4K external id is stored. -/
theorem radarrStep_snd_none (m : Media) (st : Bool × Bool) (server : RadarrServer)
    (hid : m.externalServiceId4k = none) :
    (radarrStep m st server).2 = st.2 := by
  simp only [radarrStep, hid]
  repeat' split
  all_goals rfl

/-- With no stored non-4K external id, the whole Radarr loop leaves the
non-4K flag at its initial value. -/
theorem radarr_fold_fst_none (m : Media) (servers : List RadarrServer)
    (st : Bool × Bool) (hid : m.externalServiceId = none) :
    (servers.foldl (radarrStep m) st).1 = st.1 := by
  induction servers generalizing st with
  | nil => rfl
  | cons s rest ih =>
    rw [List.foldl_cons, ih (radarrStep m st s)]
    exact radarrStep_fst_none m st s hid

/-- With no stored 4K external id, the Radarr loop leaves the 4K flag at its
initial value. -/
theorem radarr_fold_snd_none (m : Media) (servers : List RadarrServer)
    (st : Bool × Bool) (hid : m.externalServiceId4k = none) :
    (servers.foldl (radarrStep m) st).2 = st.2 := by
  induction servers generalizing st with
  | nil => rfl
  | cons s rest ih =>
    rw [List.foldl_cons, ih (radarrStep m st s)]
    exact radarrStep_snd_none m st s hid

/-- With no rating key, a Plex try block is skipped entirely. -/
theorem plexTry_none (client : Option PlexClient) (isTv : Bool) (cache : PlexCache) :
    plexTry client isTv none cache = (false, false, cache) := rfl

/-- With no stored non-4K rating key, `mediaExistsInPlex` reports `false` for
the non-4K tier. -/
theorem mediaExistsInPlex_fst_none (client : Option PlexClient) (pc : PlexCache)
    (m : Media) (hrk : m.ratingKey = none) :
    (mediaExistsInPlex client pc m).existsInPlex = false := by
  simp only [mediaExistsInPlex, hrk, plexTry_none]
  repeat' split
  all_goals rfl

/-- With no stored 4K rating key, `mediaExistsInPlex` reports `false` for the
4K tier. -/
theorem mediaExistsInPlex_snd_none (client : Option PlexClient) (pc : PlexCache)
    (m : Media) (hrk : m.ratingKey4k = none) :
    (mediaExistsInPlex client pc m).existsInPlex4k = false := by
  simp only [mediaExistsInPlex, hrk, plexTry_none]
  repeat' split
  all_goals rfl

/-! ## Concrete fixtures used by the instance theorems below -/

/-- A base media record with empty references. -/
def baseMedia : Media :=
  { id := 1, mediaType := .movie, tmdbId := 100, status := .UNKNOWN, status4k := .UNKNOWN
    ratingKey := none, ratingKey4k := none, serviceId := none, serviceId4k := none
    externalServiceId := none, externalServiceId4k := none
    externalServiceSlug := none, externalServiceSlug4k := none, seasons := [] }

/-- An environment with no Plex client and no automation servers. -/
def envNone : Env := { plexClient := none, radarrServers := [], sonarrServers := [] }

/-! ## C10 -/

/-- **C10**: for a movie with no stored rating key and no stored external
service id for a tier, every probe for that tier is skipped, the tier's
existence verdict is `false`, and if the tier status is AVAILABLE it is
downgraded to UNKNOWN by the pass. -/
theorem C10_missing_refs_downgrade (env : Env) (pc : PlexCache) (sc : SonarrCache)
    (db : Db) (t : Bool)
    (hmov : db.media.mediaType = MediaType.movie)
    (hrk : (if t then db.media.ratingKey4k else db.media.ratingKey) = none)
    (hext : (if t then db.media.externalServiceId4k else db.media.externalServiceId) = none)
    (hst : db.media.tierStatus t = MediaStatus.AVAILABLE) :
    tierOf (itemVerdicts env pc sc db.media) t = false ∧
    (processMedia env pc sc db).db.media.tierStatus t = MediaStatus.UNKNOWN := by
  cases t with
  | false =>
    simp only [if_false, Bool.false_eq_true] at hrk hext
    simp only [Media.tierStatus, if_false, Bool.false_eq_true] at hst
    have hv : (movieVerdicts env pc db.media).1 = false := by
      simp only [movieVerdicts]
      rw [mediaExistsInPlex_fst_none _ _ _ hrk]
      simp only [Bool.false_or, mediaExistsInRadarr]
      exact radarr_fold_fst_none _ _ _ hext
    constructor
    · simp only [itemVerdicts, hmov, tierOf]
      exact hv
    · simp only [processMedia, hmov, processMovie, hv, hst]
      simp only [Bool.not_false, Bool.true_and, decide_True, if_true, Bool.true_or]
      rw [mediaUpdater_mem_eq_db]
      simp only [Media.tierStatus, Bool.false_eq_true, if_false]
      rw [mediaUpdater_status_downgrade _ _ _ _ (by rw [hst]; rfl) rfl]
      simp [hmov]
  | true =>
    simp only [if_true] at hrk hext
    simp only [Media.tierStatus, if_true] at hst
    have hv : (movieVerdicts env pc db.media).2 = false := by
      simp only [movieVerdicts]
      rw [mediaExistsInPlex_snd_none _ _ _ hrk]
      simp only [Bool.false_or, mediaExistsInRadarr]
      exact radarr_fold_snd_none _ _ _ hext
    constructor
    · simp only [itemVerdicts, hmov, tierOf]
      exact hv
    · simp only [processMedia, hmov, processMovie, hv, hst]
      simp only [Bool.not_false, Bool.true_and, decide_True, if_true, Bool.or_true]
      rw [mediaUpdater_mem_eq_db]
      simp only [Media.tierStatus, if_true]
      rw [mediaUpdater_status4k_downgrade _ _ _ _ (by rw [hst]; rfl) rfl]
      simp [hmov]

/-- Witness for C10: a concrete movie with no non-4K references and non-4K
status AVAILABLE ends up UNKNOWN. -/
theorem C10_missing_refs_downgrade_witness :
    tierOf (itemVerdicts envNone emptyPlexCache emptySonarrCache
      { baseMedia with status := MediaStatus.AVAILABLE }) false = false ∧
    (processMedia envNone emptyPlexCache emptySonarrCache
      ⟨{ baseMedia with status := MediaStatus.AVAILABLE }, [], []⟩).db.media.tierStatus false =
      MediaStatus.UNKNOWN :=
  C10_missing_refs_downgrade envNone emptyPlexCache emptySonarrCache
    ⟨{ baseMedia with status := MediaStatus.AVAILABLE }, [], []⟩ false rfl rfl rfl rfl

/-! ## C7 -/

/-- **C7**: the next status for a downgraded tier is computed from the joined
requests by `findMediaStatus`: any matching-tier APPROVED request yields
PROCESSING, else any matching-tier PENDING request yields PENDING, else
UNKNOWN; `mediaUpdater` wires this in for shows only, while movies always
fall to UNKNOWN. -/
theorem C7_next_status_rules (requests : List MediaRequest) (t : Bool)
    (m : Media) (db : Db) (e e4 : Bool) :
    ((∃ r ∈ requests, r.is4k = t ∧ r.status = MediaRequestStatus.APPROVED) →
      findMediaStatus requests t = MediaStatus.PROCESSING) ∧
    ((¬ ∃ r ∈ requests, r.is4k = t ∧ r.status = MediaRequestStatus.APPROVED) →
      (∃ r ∈ requests, r.is4k = t ∧ r.status = MediaRequestStatus.PENDING) →
      findMediaStatus requests t = MediaStatus.PENDING) ∧
    ((¬ ∃ r ∈ requests, r.is4k = t ∧
        (r.status = MediaRequestStatus.APPROVED ∨ r.status = MediaRequestStatus.PENDING)) →
      findMediaStatus requests t = MediaStatus.UNKNOWN) ∧
    (m.mediaType = MediaType.tv → isAvailableStatus m.status = true → e = false →
      (mediaUpdater m db e e4).mem.status = findMediaStatus (joinedRequests db m.id) false) ∧
    (m.mediaType = MediaType.movie → isAvailableStatus m.status = true → e = false →
      (mediaUpdater m db e e4).mem.status = MediaStatus.UNKNOWN) ∧
    (m.mediaType = MediaType.tv → isAvailableStatus m.status4k = true → e4 = false →
      (mediaUpdater m db e e4).mem.status4k = findMediaStatus (joinedRequests db m.id) true) ∧
    (m.mediaType = MediaType.movie → isAvailableStatus m.status4k = true → e4 = false →
      (mediaUpdater m db e e4).mem.status4k = MediaStatus.UNKNOWN) := by
  refine ⟨?_, ?_, ?_, ?_, ?_, ?_, ?_⟩
  · intro h
    obtain ⟨r, hr, h1, h2⟩ := h
    have hA : ((requests.filter (fun r => r.is4k = t)).any
        (fun r => r.status = MediaRequestStatus.APPROVED)) = true := by
      simp only [List.any_eq_true, List.mem_filter, decide_eq_true_eq]
      exact ⟨r, ⟨hr, h1⟩, h2⟩
    simp [findMediaStatus, hA]
  · intro hna h
    obtain ⟨r, hr, h1, h2⟩ := h
    have hA : ((requests.filter (fun r => r.is4k = t)).any
        (fun r => r.status = MediaRequestStatus.APPROVED)) = false := by
      simp only [List.any_eq_false, List.mem_filter, decide_eq_true_eq]
      exact fun x hx hs => hna ⟨x, hx.1, hx.2, hs⟩
    have hP : ((requests.filter (fun r => r.is4k = t)).any
        (fun r => r.status = MediaRequestStatus.PENDING)) = true := by
      simp only [List.any_eq_true, List.mem_filter, decide_eq_true_eq]
      exact ⟨r, ⟨hr, h1⟩, h2⟩
    simp [findMediaStatus, hA, hP]
  · intro hn
    have hA : ((requests.filter (fun r => r.is4k = t)).any
        (fun r => r.status = MediaRequestStatus.APPROVED)) = false := by
      simp only [List.any_eq_false, List.mem_filter, decide_eq_true_eq]
      exact fun x hx hs => hn ⟨x, hx.1, hx.2, Or.inl hs⟩
    have hP : ((requests.filter (fun r => r.is4k = t)).any
        (fun r => r.status = MediaRequestStatus.PENDING)) = false := by
      simp only [List.any_eq_false, List.mem_filter, decide_eq_true_eq]
      exact fun x hx hs => hn ⟨x, hx.1, hx.2, Or.inr hs⟩
    simp [findMediaStatus, hA, hP]
  · intro htv ha he
    rw [mediaUpdater_status_downgrade _ _ _ _ ha he]
    simp [htv, he]
  · intro hmv ha he
    rw [mediaUpdater_status_downgrade _ _ _ _ ha he]
    simp [hmv]
  · intro htv ha he
    rw [mediaUpdater_status4k_downgrade _ _ _ _ ha he]
    simp [htv, he]
  · intro hmv ha he
    rw [mediaUpdater_status4k_downgrade _ _ _ _ ha he]
    simp [hmv]

/-- Witness for C7: a single approved non-4K request yields PROCESSING. -/
theorem C7_next_status_rules_witness :
    findMediaStatus [⟨1, 1, false, MediaRequestStatus.APPROVED⟩] false =
      MediaStatus.PROCESSING :=
  (C7_next_status_rules [⟨1, 1, false, MediaRequestStatus.APPROVED⟩] false
    baseMedia ⟨baseMedia, [], []⟩ false false).1
    ⟨⟨1, 1, false, MediaRequestStatus.APPROVED⟩, by simp, rfl, rfl⟩

/-! ## Code-bug and counterexample instances -/

/-- A single non-4K Sonarr server that answers with the given series. -/
def sonarrServerFound (ser : SonarrSeries) : SonarrServer :=
  { is4k := false, getSeriesById := fun _ => Probe.found ser }

/-- A non-4K Sonarr server whose probe always fails transiently. -/
def sonarrServerTransient : SonarrServer :=
  { is4k := false, getSeriesById := fun _ => Probe.transient }

/-- A 4K Sonarr server whose probe always fails transiently. -/
def sonarrServerTransient4k : SonarrServer :=
  { is4k := true, getSeriesById := fun _ => Probe.transient }

/-- A 4K Radarr server that finds the movie with a file. -/
def radarrServerFound4k : RadarrServer :=
  { is4k := true, getMovie := fun _ => Probe.found true }

/-- C1 counterexample input: a movie with non-4K status PARTIALLY_AVAILABLE,
no references anywhere, processed with no probes configured. -/
def mediaC1cex : Media := { baseMedia with status := MediaStatus.PARTIALLY_AVAILABLE }

/-- Counterexample to **C1** as stated: this movie's non-4K status is
PARTIALLY_AVAILABLE with a false aggregated verdict, yet after the pass the
status is still PARTIALLY_AVAILABLE (the movie guard of `run()` lines 87-90
tests `=== AVAILABLE` only), not in {UNKNOWN, PENDING, PROCESSING}. -/
theorem C1_counterexample :
    tierOf (itemVerdicts envNone emptyPlexCache emptySonarrCache mediaC1cex) false = false ∧
    isAvailableStatus (mediaC1cex.tierStatus false) = true ∧
    (processMedia envNone emptyPlexCache emptySonarrCache
      ⟨mediaC1cex, [], []⟩).db.media.tierStatus false = MediaStatus.PARTIALLY_AVAILABLE := by
  decide

/-- C2 failing input: a show whose non-4K tier still exists (Sonarr finds the
series with files) while the 4K tier is gone, with stored 4K references and
one approved 4K request. -/
def mediaC2bug : Media :=
  { baseMedia with
    mediaType := MediaType.tv
    status := MediaStatus.AVAILABLE
    status4k := MediaStatus.AVAILABLE
    externalServiceId := some 10
    ratingKey4k := some "rk4"
    serviceId4k := some 5
    externalServiceId4k := some 20
    externalServiceSlug4k := some "slug4" }

/-- Environment for the C2 failing input. -/
def envC2bug : Env :=
  { plexClient := none, radarrServers := []
    sonarrServers := [sonarrServerFound ⟨5, []⟩] }

/-- Database for the C2 failing input: one approved 4K request joined. -/
def dbC2bug : Db := ⟨mediaC2bug, [⟨1, 1, true, MediaRequestStatus.APPROVED⟩], []⟩

/-- **C2** evaluated at the failing input: the computed 4K next status is
PROCESSING (an approved 4K request exists), yet all four 4K references are
cleared to null, because lines 352-363 compare the **non-4K** `mediaStatus`
against PROCESSING instead of `mediaStatus4k`. -/
theorem C2_code_bug_eval :
    (processMedia envC2bug emptyPlexCache emptySonarrCache dbC2bug).db.media.status4k =
      MediaStatus.PROCESSING ∧
    (processMedia envC2bug emptyPlexCache emptySonarrCache dbC2bug).db.media.ratingKey4k = none ∧
    (processMedia envC2bug emptyPlexCache emptySonarrCache dbC2bug).db.media.serviceId4k = none ∧
    (processMedia envC2bug emptyPlexCache emptySonarrCache dbC2bug).db.media.externalServiceId4k
      = none ∧
    (processMedia envC2bug emptyPlexCache emptySonarrCache dbC2bug).db.media.externalServiceSlug4k
      = none := by
  decide

/-- C3 counterexample input: a show with both tiers' Sonarr probes failing
transiently (no Plex client), one season AVAILABLE on the non-4K tier. -/
def mediaC3cex : Media :=
  { baseMedia with
    mediaType := MediaType.tv
    status := MediaStatus.AVAILABLE
    externalServiceId := some 10
    externalServiceId4k := some 20
    seasons := [⟨1, MediaStatus.AVAILABLE, MediaStatus.UNKNOWN⟩] }

/-- Environment for the C3 counterexample: every probe issued for either tier
returns a transient (non-404) error. -/
def envC3cex : Env :=
  { plexClient := none, radarrServers := []
    sonarrServers := [sonarrServerTransient, sonarrServerTransient4k] }

/-- Counterexample to **C3** as stated: every probe issued for the non-4K tier
(and for the 4K tier) returns a transient error, so the item verdict is true —
but because **both** prevent flags are set, the per-season maps are skipped
(line 657), the season's non-4K verdict defaults to false, its status changes
AVAILABLE → UNKNOWN, and the parent cascade even rewrites the stored item
status to PARTIALLY_AVAILABLE. -/
theorem C3_counterexample :
    tierOf (itemVerdicts envC3cex emptyPlexCache emptySonarrCache mediaC3cex) false = true ∧
    (tvAggregate envC3cex emptyPlexCache emptySonarrCache mediaC3cex).seasonMap 1 = false ∧
    (processMedia envC3cex emptyPlexCache emptySonarrCache
      ⟨mediaC3cex, [], []⟩).db.media.seasons =
      [⟨1, MediaStatus.UNKNOWN, MediaStatus.UNKNOWN⟩] ∧
    (processMedia envC3cex emptyPlexCache emptySonarrCache
      ⟨mediaC3cex, [], []⟩).db.media.status = MediaStatus.PARTIALLY_AVAILABLE := by
  decide

/-- C4 counterexample input: the show itself exists in Sonarr
(`episodeFileCount = 5`) but season 1 has no episode files there. -/
def mediaC4cex : Media :=
  { baseMedia with
    mediaType := MediaType.tv
    status := MediaStatus.AVAILABLE
    externalServiceId := some 10
    seasons := [⟨1, MediaStatus.AVAILABLE, MediaStatus.UNKNOWN⟩] }

/-- Environment for the C4 counterexample. -/
def envC4cex : Env :=
  { plexClient := none, radarrServers := []
    sonarrServers := [sonarrServerFound ⟨5, [⟨1, some 0⟩]⟩] }

/-- Counterexample to **C4** as stated: the show is confirmed to exist for the
non-4K tier (`showExists = true`), yet season 1's merged verdict is false and
the season is downgraded — the merged season verdict is only
`existsInPlexMap[n] || existsInSonarrMap[n]` (line 147), with no item-level
disjunct. -/
theorem C4_counterexample :
    (tvAggregate envC4cex emptyPlexCache emptySonarrCache mediaC4cex).showExists = true ∧
    (tvAggregate envC4cex emptyPlexCache emptySonarrCache mediaC4cex).seasonMap 1 = false ∧
    (processMedia envC4cex emptyPlexCache emptySonarrCache
      ⟨mediaC4cex, [], []⟩).db.media.seasons =
      [⟨1, MediaStatus.UNKNOWN, MediaStatus.UNKNOWN⟩] := by
  decide

/-- C5 failing input: a season whose non-4K status is PROCESSING and whose 4K
status is AVAILABLE, with a false 4K season verdict (no 4K references). -/
def mediaC5bug : Media :=
  { baseMedia with
    mediaType := MediaType.tv
    status := MediaStatus.AVAILABLE
    externalServiceId := some 10
    seasons := [⟨1, MediaStatus.PROCESSING, MediaStatus.AVAILABLE⟩] }

/-- Environment for the C5 failing input: the show and its season exist on the
non-4K side. -/
def envC5bug : Env :=
  { plexClient := none, radarrServers := []
    sonarrServers := [sonarrServerFound ⟨5, [⟨1, some 2⟩]⟩] }

/-- **C5** evaluated at the failing input: the season's 4K status is AVAILABLE
and its 4K verdict is false, yet the season keeps 4K status AVAILABLE after
the pass — the gate of lines 176-183 tests `season.status` (the non-4K
status) in the 4K disjunct (line 181), so `seasonUpdater` is never invoked. -/
theorem C5_code_bug_eval :
    (tvAggregate envC5bug emptyPlexCache emptySonarrCache mediaC5bug).seasonMap4k 1 = false ∧
    isAvailableStatus (Season.tierStatus ⟨1, MediaStatus.PROCESSING, MediaStatus.AVAILABLE⟩ true)
      = true ∧
    (processMedia envC5bug emptyPlexCache emptySonarrCache
      ⟨mediaC5bug, [], []⟩).db.media.seasons =
      [⟨1, MediaStatus.PROCESSING, MediaStatus.AVAILABLE⟩] := by
  decide

/-- C6 counterexample input: a movie available on both tiers; the 4K tier
still exists in Radarr, the non-4K tier is gone. -/
def mediaC6cex : Media :=
  { baseMedia with
    status := MediaStatus.AVAILABLE
    status4k := MediaStatus.AVAILABLE
    externalServiceId4k := some 7 }

/-- Environment for the C6 counterexample. -/
def envC6cex : Env :=
  { plexClient := none, radarrServers := [radarrServerFound4k], sonarrServers := [] }

/-- Database for the C6 counterexample: one request per tier. -/
def dbC6cex : Db :=
  ⟨mediaC6cex,
   [⟨1, 1, false, MediaRequestStatus.PENDING⟩, ⟨2, 1, true, MediaRequestStatus.APPROVED⟩], []⟩

/-- Counterexample to **C6** as stated: the 4K tier still exists, its status is
left untouched at AVAILABLE, yet the 4K request is deleted anyway — the join
filter matches any request whose tier status is currently available, not only
tiers actually downgraded, and `remove(requests)` deletes the whole joined
set. -/
theorem C6_counterexample :
    tierOf (itemVerdicts envC6cex emptyPlexCache emptySonarrCache mediaC6cex) true = true ∧
    (processMedia envC6cex emptyPlexCache emptySonarrCache dbC6cex).db.media.status4k =
      MediaStatus.AVAILABLE ∧
    (processMedia envC6cex emptyPlexCache emptySonarrCache dbC6cex).deletedRequests =
      [⟨1, 1, false, MediaRequestStatus.PENDING⟩, ⟨2, 1, true, MediaRequestStatus.APPROVED⟩] := by
  decide

/-- C9 counterexample input: a show available on both tiers; the non-4K tier
still exists but season 1 is gone there; the 4K tier is gone entirely. -/
def mediaC9cex : Media :=
  { baseMedia with
    mediaType := MediaType.tv
    status := MediaStatus.AVAILABLE
    status4k := MediaStatus.AVAILABLE
    externalServiceId := some 10
    seasons := [⟨1, MediaStatus.AVAILABLE, MediaStatus.UNKNOWN⟩] }

/-- Environment for the C9 counterexample. -/
def envC9cex : Env :=
  { plexClient := none, radarrServers := []
    sonarrServers := [sonarrServerFound ⟨5, [⟨1, some 0⟩]⟩] }

/-- Counterexample to **C9** as stated: after the season loop the stored item
status is PARTIALLY_AVAILABLE (season cascade), but the subsequent
`mediaUpdater` save rewrites the whole record from the stale in-memory object
and the stored status goes back to AVAILABLE — a store write that sets a
status to AVAILABLE during reconciliation. -/
theorem C9_counterexample :
    (seasonLoop (tvAggregate envC9cex emptyPlexCache emptySonarrCache mediaC9cex) mediaC9cex
        [] mediaC9cex.seasons ⟨mediaC9cex, [], []⟩ []).2.1.media.status =
      MediaStatus.PARTIALLY_AVAILABLE ∧
    (processMedia envC9cex emptyPlexCache emptySonarrCache
      ⟨mediaC9cex, [], []⟩).db.media.status = MediaStatus.AVAILABLE := by
  decide

/-! ## C1 (amended) -/

/-- **C1** (amended): for a show, any tier whose status is AVAILABLE or
PARTIALLY_AVAILABLE with a false aggregated verdict ends the pass in
{UNKNOWN, PENDING, PROCESSING}; for a movie the same holds when the tier's
status is exactly AVAILABLE (the movie guard does not fire on
PARTIALLY_AVAILABLE alone). -/
theorem C1_amended_downgrade (env : Env) (pc : PlexCache) (sc : SonarrCache) (db : Db)
    (t : Bool)
    (hkind : (db.media.mediaType = MediaType.tv ∧
                isAvailableStatus (db.media.tierStatus t) = true) ∨
             (db.media.mediaType = MediaType.movie ∧
                db.media.tierStatus t = MediaStatus.AVAILABLE))
    (hv : tierOf (itemVerdicts env pc sc db.media) t = false) :
    (processMedia env pc sc db).db.media.tierStatus t = MediaStatus.UNKNOWN ∨
    (processMedia env pc sc db).db.media.tierStatus t = MediaStatus.PENDING ∨
    (processMedia env pc sc db).db.media.tierStatus t = MediaStatus.PROCESSING := by
  rcases hkind with ⟨htv, ha⟩ | ⟨hmv, hst⟩
  · -- show
    cases t with
    | false =>
      simp only [Media.tierStatus, Bool.false_eq_true, if_false] at ha
      simp only [itemVerdicts, htv, tierOf, Bool.false_eq_true, if_false] at hv
      simp only [processMedia, htv, processTv, hv, ha]
      simp only [Bool.not_false, Bool.true_and, Bool.true_or, if_true]
      rw [mediaUpdater_mem_eq_db]
      simp only [Media.tierStatus, Bool.false_eq_true, if_false]
      rw [mediaUpdater_status_downgrade]
      · simp only [Bool.not_false, Bool.and_true, decide_eq_true_eq]
        split
        · exact findMediaStatus_mem _ _
        · exact Or.inl rfl
      · exact ha
      · rfl
    | true =>
      simp only [Media.tierStatus, if_true] at ha
      simp only [itemVerdicts, htv, tierOf, if_true] at hv
      simp only [processMedia, htv, processTv, hv, ha]
      simp only [Bool.not_false, Bool.true_and, Bool.or_true, if_true]
      rw [mediaUpdater_mem_eq_db]
      simp only [Media.tierStatus, if_true]
      rw [mediaUpdater_status4k_downgrade]
      · simp only [Bool.not_false, Bool.and_true, decide_eq_true_eq]
        split
        · exact findMediaStatus_mem _ _
        · exact Or.inl rfl
      · exact ha
      · rfl
  · -- movie
    cases t with
    | false =>
      simp only [Media.tierStatus, Bool.false_eq_true, if_false] at hst
      simp only [itemVerdicts, hmv, tierOf, Bool.false_eq_true, if_false] at hv
      simp only [processMedia, hmv, processMovie, hv, hst]
      simp only [Bool.not_false, Bool.true_and, decide_True, if_true, Bool.true_or]
      rw [mediaUpdater_mem_eq_db]
      simp only [Media.tierStatus, Bool.false_eq_true, if_false]
      rw [mediaUpdater_status_downgrade]
      · simp [hmv]
      · rw [hst]; rfl
      · rfl
    | true =>
      simp only [Media.tierStatus, if_true] at hst
      simp only [itemVerdicts, hmv, tierOf, if_true] at hv
      simp only [processMedia, hmv, processMovie, hv, hst]
      simp only [Bool.not_false, Bool.true_and, decide_True, if_true, Bool.or_true]
      rw [mediaUpdater_mem_eq_db]
      simp only [Media.tierStatus, if_true]
      rw [mediaUpdater_status4k_downgrade]
      · simp [hmv]
      · rw [hst]; rfl
      · rfl

/-- Witness for C1 (amended): a show with non-4K status AVAILABLE, no
references and a false verdict ends the pass with non-4K status UNKNOWN. -/
theorem C1_amended_downgrade_witness :
    (processMedia envNone emptyPlexCache emptySonarrCache
      ⟨{ baseMedia with mediaType := MediaType.tv, status := MediaStatus.AVAILABLE }, [], []⟩
      ).db.media.tierStatus false = MediaStatus.UNKNOWN ∨
    (processMedia envNone emptyPlexCache emptySonarrCache
      ⟨{ baseMedia with mediaType := MediaType.tv, status := MediaStatus.AVAILABLE }, [], []⟩
      ).db.media.tierStatus false = MediaStatus.PENDING ∨
    (processMedia envNone emptyPlexCache emptySonarrCache
      ⟨{ baseMedia with mediaType := MediaType.tv, status := MediaStatus.AVAILABLE }, [], []⟩
      ).db.media.tierStatus false = MediaStatus.PROCESSING :=
  C1_amended_downgrade envNone emptyPlexCache emptySonarrCache
    ⟨{ baseMedia with mediaType := MediaType.tv, status := MediaStatus.AVAILABLE }, [], []⟩
    false (Or.inl ⟨rfl, rfl⟩) (by decide)

/-! ## Season-map characterization -/

/-- Seasons whose number differs from `n` leave the maps at `n` untouched. -/
theorem buildSeasonMaps_notMem (g : Season → Bool × Bool) (seasons : List Season)
    (maps : (Nat → Bool) × (Nat → Bool)) (n : Nat)
    (h : ∀ s ∈ seasons, s.seasonNumber ≠ n) :
    (buildSeasonMaps g seasons maps).1 n = maps.1 n ∧
    (buildSeasonMaps g seasons maps).2 n = maps.2 n := by
  induction seasons generalizing maps with
  | nil => exact ⟨rfl, rfl⟩
  | cons s0 rest ih =>
    obtain ⟨m1, m2⟩ := maps
    simp only [buildSeasonMaps]
    have hs0 : s0.seasonNumber ≠ n := h s0 (List.mem_cons_self _ _)
    have ih' := ih
      (fun k => if k = s0.seasonNumber then (g s0).1 else m1 k,
       fun k => if k = s0.seasonNumber then (g s0).2 else m2 k)
      (fun x hx => h x (List.mem_cons_of_mem _ hx))
    rw [ih'.1, ih'.2]
    have hne : ¬ n = s0.seasonNumber := fun h' => hs0 h'.symm
    exact ⟨if_neg hne, if_neg hne⟩

/-- With pairwise-distinct season numbers, the maps assign each listed season
exactly its per-season verdict. -/
theorem buildSeasonMaps_mem (g : Season → Bool × Bool) (seasons : List Season)
    (maps : (Nat → Bool) × (Nat → Bool)) (s : Season)
    (hmem : s ∈ seasons) (hnd : (seasons.map Season.seasonNumber).Nodup) :
    (buildSeasonMaps g seasons maps).1 s.seasonNumber = (g s).1 ∧
    (buildSeasonMaps g seasons maps).2 s.seasonNumber = (g s).2 := by
  induction seasons generalizing maps with
  | nil => cases hmem
  | cons s0 rest ih =>
    obtain ⟨m1, m2⟩ := maps
    simp only [List.map_cons, List.nodup_cons] at hnd
    rcases List.mem_cons.mp hmem with h0 | hmem'
    · subst h0
      simp only [buildSeasonMaps]
      have hnot : ∀ x ∈ rest, x.seasonNumber ≠ s.seasonNumber := by
        intro x hx heq
        exact hnd.1 (heq ▸ List.mem_map_of_mem Season.seasonNumber hx)
      have h2 := buildSeasonMaps_notMem g rest
        (fun k => if k = s.seasonNumber then (g s).1 else m1 k,
         fun k => if k = s.seasonNumber then (g s).2 else m2 k) s.seasonNumber hnot
      rw [h2.1, h2.2]
      constructor <;> simp
    · exact ih _ hmem' hnd.2

/-- For a show processed without the Plex season skip, the Plex season map
holds exactly `seasonExistsInPlex` evaluated at the final cache and flags. -/
theorem mediaExistsInPlex_seasonMap (client : Option PlexClient) (pc : PlexCache)
    (m : Media) (s : Season) (htv : m.mediaType = MediaType.tv)
    (hmem : s ∈ m.seasons) (hnd : (m.seasons.map Season.seasonNumber).Nodup)
    (hns : (!(mediaExistsInPlex client pc m).preventSeasonSearch ||
            !(mediaExistsInPlex client pc m).preventSeasonSearch4k) = true) :
    (mediaExistsInPlex client pc m).seasonMap s.seasonNumber =
      (seasonExistsInPlex m s (mediaExistsInPlex client pc m).preventSeasonSearch
        (mediaExistsInPlex client pc m).preventSeasonSearch4k
        (mediaExistsInPlex client pc m).cache).1 ∧
    (mediaExistsInPlex client pc m).seasonMap4k s.seasonNumber =
      (seasonExistsInPlex m s (mediaExistsInPlex client pc m).preventSeasonSearch
        (mediaExistsInPlex client pc m).preventSeasonSearch4k
        (mediaExistsInPlex client pc m).cache).2 := by
  simp only [mediaExistsInPlex, htv] at hns ⊢
  simp only [reduceCtorEq, if_false] at hns ⊢
  rw [if_pos hns]
  exact buildSeasonMaps_mem _ _ _ s hmem hnd

/-- For a show processed without the Sonarr season skip, the Sonarr season map
holds exactly `seasonExistsInSonarr` evaluated at the final cache and flags. -/
theorem mediaExistsInSonarr_seasonMap (servers : List SonarrServer) (sc : SonarrCache)
    (m : Media) (s : Season)
    (hmem : s ∈ m.seasons) (hnd : (m.seasons.map Season.seasonNumber).Nodup)
    (hns : (!(sonarrPass servers sc m).preventSeasonSearch ||
            !(sonarrPass servers sc m).preventSeasonSearch4k) = true) :
    (mediaExistsInSonarr servers sc m).seasonMap s.seasonNumber =
      (seasonExistsInSonarr m s (sonarrPass servers sc m).preventSeasonSearch
        (sonarrPass servers sc m).preventSeasonSearch4k
        (sonarrPass servers sc m).cache).1 ∧
    (mediaExistsInSonarr servers sc m).seasonMap4k s.seasonNumber =
      (seasonExistsInSonarr m s (sonarrPass servers sc m).preventSeasonSearch
        (sonarrPass servers sc m).preventSeasonSearch4k
        (sonarrPass servers sc m).cache).2 := by
  simp only [mediaExistsInSonarr]
  rw [if_pos hns]
  exact buildSeasonMaps_mem _ _ _ s hmem hnd

/-! ## C4 (amended) -/

/-- **C4** (amended): a season's merged existence verdict for a tier is the OR
of the media-server season verdict and the automation-manager season verdict
alone (each computed from that source's cached season list with its
error-fallback flag); item-level existence does **not** enter the merge, so a
show confirmed to exist does not make its seasons count as existing. -/
theorem C4_amended_merged_verdict (env : Env) (pc : PlexCache) (sc : SonarrCache)
    (m : Media) (s : Season)
    (htv : m.mediaType = MediaType.tv)
    (hmem : s ∈ m.seasons) (hnd : (m.seasons.map Season.seasonNumber).Nodup)
    (hplex : (!(mediaExistsInPlex env.plexClient pc m).preventSeasonSearch ||
              !(mediaExistsInPlex env.plexClient pc m).preventSeasonSearch4k) = true)
    (hson : (!(sonarrPass env.sonarrServers sc m).preventSeasonSearch ||
             !(sonarrPass env.sonarrServers sc m).preventSeasonSearch4k) = true) :
    (tvAggregate env pc sc m).seasonMap s.seasonNumber =
      ((seasonExistsInPlex m s (mediaExistsInPlex env.plexClient pc m).preventSeasonSearch
          (mediaExistsInPlex env.plexClient pc m).preventSeasonSearch4k
          (mediaExistsInPlex env.plexClient pc m).cache).1 ||
       (seasonExistsInSonarr m s (sonarrPass env.sonarrServers sc m).preventSeasonSearch
          (sonarrPass env.sonarrServers sc m).preventSeasonSearch4k
          (sonarrPass env.sonarrServers sc m).cache).1) ∧
    (tvAggregate env pc sc m).seasonMap4k s.seasonNumber =
      ((seasonExistsInPlex m s (mediaExistsInPlex env.plexClient pc m).preventSeasonSearch
          (mediaExistsInPlex env.plexClient pc m).preventSeasonSearch4k
          (mediaExistsInPlex env.plexClient pc m).cache).2 ||
       (seasonExistsInSonarr m s (sonarrPass env.sonarrServers sc m).preventSeasonSearch
          (sonarrPass env.sonarrServers sc m).preventSeasonSearch4k
          (sonarrPass env.sonarrServers sc m).cache).2) := by
  have hp := mediaExistsInPlex_seasonMap env.plexClient pc m s htv hmem hnd hplex
  have hs := mediaExistsInSonarr_seasonMap env.sonarrServers sc m s hmem hnd hson
  simp only [tvAggregate]
  rw [hp.1, hp.2, hs.1, hs.2]
  exact ⟨rfl, rfl⟩

/-- Witness for C4 (amended) at a concrete show: one Sonarr server that finds
the series with files but reports season 1 as empty. -/
theorem C4_amended_merged_verdict_witness :
    (tvAggregate envC4cex emptyPlexCache emptySonarrCache mediaC4cex).seasonMap 1 =
      ((seasonExistsInPlex mediaC4cex ⟨1, MediaStatus.AVAILABLE, MediaStatus.UNKNOWN⟩
          (mediaExistsInPlex envC4cex.plexClient emptyPlexCache mediaC4cex).preventSeasonSearch
          (mediaExistsInPlex envC4cex.plexClient emptyPlexCache mediaC4cex).preventSeasonSearch4k
          (mediaExistsInPlex envC4cex.plexClient emptyPlexCache mediaC4cex).cache).1 ||
       (seasonExistsInSonarr mediaC4cex ⟨1, MediaStatus.AVAILABLE, MediaStatus.UNKNOWN⟩
          (sonarrPass envC4cex.sonarrServers emptySonarrCache mediaC4cex).preventSeasonSearch
          (sonarrPass envC4cex.sonarrServers emptySonarrCache mediaC4cex).preventSeasonSearch4k
          (sonarrPass envC4cex.sonarrServers emptySonarrCache mediaC4cex).cache).1) ∧
    (tvAggregate envC4cex emptyPlexCache emptySonarrCache mediaC4cex).seasonMap4k 1 =
      ((seasonExistsInPlex mediaC4cex ⟨1, MediaStatus.AVAILABLE, MediaStatus.UNKNOWN⟩
          (mediaExistsInPlex envC4cex.plexClient emptyPlexCache mediaC4cex).preventSeasonSearch
          (mediaExistsInPlex envC4cex.plexClient emptyPlexCache mediaC4cex).preventSeasonSearch4k
          (mediaExistsInPlex envC4cex.plexClient emptyPlexCache mediaC4cex).cache).2 ||
       (seasonExistsInSonarr mediaC4cex ⟨1, MediaStatus.AVAILABLE, MediaStatus.UNKNOWN⟩
          (sonarrPass envC4cex.sonarrServers emptySonarrCache mediaC4cex).preventSeasonSearch
          (sonarrPass envC4cex.sonarrServers emptySonarrCache mediaC4cex).preventSeasonSearch4k
          (sonarrPass envC4cex.sonarrServers emptySonarrCache mediaC4cex).cache).2) :=
  C4_amended_merged_verdict envC4cex emptyPlexCache emptySonarrCache mediaC4cex
    ⟨1, MediaStatus.AVAILABLE, MediaStatus.UNKNOWN⟩ rfl (by decide) (by decide)
    (by decide) (by decide)

/-! ## C6 (amended) -/

/-- For a movie, `mediaUpdater` deletes exactly the joined request set (also
when that set is empty, in which case the removal is skipped). -/
theorem mediaUpdater_deletedRequests (m : Media) (db : Db) (e e4 : Bool)
    (hmov : m.mediaType = MediaType.movie) :
    (mediaUpdater m db e e4).deletedRequests = joinedRequests db m.id := by
  simp only [mediaUpdater, hmov, decide_True, Bool.and_true]
  split
  · rfl
  · next hc =>
    have hc' : (joinedRequests db m.id).isEmpty = true := by
      revert hc
      cases (joinedRequests db m.id).isEmpty <;> simp
    rw [List.isEmpty_iff] at hc'
    rw [hc']

/-- **C6** (amended): for a movie item, a request is deleted iff the movie
guard fired (some tier AVAILABLE with a false verdict) and the request is
joined — i.e. belongs to the item and its tier's stored status was AVAILABLE
or PARTIALLY_AVAILABLE at query time.  Whether the request's own tier was
actually downgraded plays no role. -/
theorem C6_amended_deleted_requests (env : Env) (pc : PlexCache) (sc : SonarrCache)
    (db : Db) (hmov : db.media.mediaType = MediaType.movie) (r : MediaRequest) :
    r ∈ (processMedia env pc sc db).deletedRequests ↔
      (((!(movieVerdicts env pc db.media).1 &&
          decide (db.media.status = MediaStatus.AVAILABLE)) ||
        (!(movieVerdicts env pc db.media).2 &&
          decide (db.media.status4k = MediaStatus.AVAILABLE))) = true ∧
       r ∈ db.requests ∧ r.mediaId = db.media.id ∧
       ((r.is4k = false ∧ isAvailableStatus db.media.status = true) ∨
        (r.is4k = true ∧ isAvailableStatus db.media.status4k = true))) := by
  simp only [processMedia, hmov, processMovie]
  split
  · next hguard =>
    rw [mediaUpdater_deletedRequests _ _ _ _ hmov]
    simp only [hguard, true_and, joinedRequests, List.mem_filter, Bool.and_eq_true,
      decide_eq_true_eq, Bool.or_eq_true, Bool.not_eq_true', Bool.not_eq_true]
  · next hguard =>
    simp only [List.not_mem_nil, false_iff, not_and]
    intro hg
    exact absurd hg hguard

/-- Witness for C6 (amended) at the C6 fixture: the approved 4K request is in
the deleted set. -/
theorem C6_amended_deleted_requests_witness :
    (⟨2, 1, true, MediaRequestStatus.APPROVED⟩ : MediaRequest) ∈
      (processMedia envC6cex emptyPlexCache emptySonarrCache dbC6cex).deletedRequests :=
  (C6_amended_deleted_requests envC6cex emptyPlexCache emptySonarrCache dbC6cex rfl
    ⟨2, 1, true, MediaRequestStatus.APPROVED⟩).mpr
    ⟨by decide, by decide, rfl, Or.inr ⟨rfl, rfl⟩⟩

/-! ## Transient-probe lemmas (towards C3) -/

/-- A 4K Sonarr server iteration does not touch the non-4K flags. -/
theorem sonarrStep_is4k_fields (m : Media) (st : SonarrState) (server : SonarrServer)
    (h4 : server.is4k = true) :
    (sonarrStep m st server).existsInSonarr = st.existsInSonarr ∧
    (sonarrStep m st server).preventSeasonSearch = st.preventSeasonSearch := by
  simp only [sonarrStep, h4, Bool.not_true, Bool.not_false, Bool.false_eq_true,
    eq_self_iff_true, if_false, if_true]
  repeat' split
  all_goals exact ⟨by trivial, by trivial⟩

/-- A non-4K Sonarr server whose probe fails transiently sets both the
existence flag and the prevent flag of the non-4K tier. -/
theorem sonarrStep_transient_nonfourk (m : Media) (st : SonarrState)
    (server : SonarrServer) (id : Nat)
    (h4 : server.is4k = false) (hid : m.externalServiceId = some id)
    (ht : server.getSeriesById id = Probe.transient) :
    (sonarrStep m st server).existsInSonarr = true ∧
    (sonarrStep m st server).preventSeasonSearch = true := by
  simp only [sonarrStep, h4, hid, ht, Bool.not_true, Bool.not_false, Bool.false_eq_true,
    eq_self_iff_true, if_false, if_true]
  exact ⟨by trivial, by trivial⟩

/-- When every non-4K Sonarr probe of the stored external id fails
transiently, the server loop ends with the non-4K existence and prevent flags
equal to "initial value OR some non-4K server exists". -/
theorem sonarr_fold_transient_nonfourk (m : Media) (id : Nat)
    (hid : m.externalServiceId = some id) :
    ∀ (servers : List SonarrServer) (st : SonarrState),
      (∀ s ∈ servers, s.is4k = false → s.getSeriesById id = Probe.transient) →
      (List.foldl (sonarrStep m) st servers).existsInSonarr =
        (st.existsInSonarr || servers.any (fun s => !s.is4k)) ∧
      (List.foldl (sonarrStep m) st servers).preventSeasonSearch =
        (st.preventSeasonSearch || servers.any (fun s => !s.is4k))
  | [], st, _ => by simp
  | server :: rest, st, hall => by
    have ih := sonarr_fold_transient_nonfourk m id hid rest (sonarrStep m st server)
      (fun s hs => hall s (List.mem_cons_of_mem _ hs))
    rw [List.foldl_cons]
    cases h4 : server.is4k with
    | true =>
      have hf := sonarrStep_is4k_fields m st server h4
      rw [ih.1, ih.2, hf.1, hf.2, List.any_cons]
      simp [h4]
    | false =>
      have hf := sonarrStep_transient_nonfourk m st server id h4 hid
        (hall server (List.mem_cons_self _ _) h4)
      rw [ih.1, ih.2, hf.1, hf.2, List.any_cons]
      simp [h4]

/-- A Plex try block over a transiently failing metadata probe reports
existence and sets the prevent flag, leaving the cache alone. -/
theorem plexTry_transient (c : PlexClient) (isTv : Bool) (rk : String)
    (cache : PlexCache) (ht : c.getMetadata rk = Probe.transient) :
    plexTry (some c) isTv (some rk) cache = (true, true, cache) := by
  simp [plexTry, ht]

/-- With a configured client, a stored non-4K rating key and a transient
metadata probe, `mediaExistsInPlex` reports the non-4K tier as existing and
prevents its season search. -/
theorem mediaExistsInPlex_transient (c : PlexClient) (pc : PlexCache) (m : Media)
    (rk : String) (hrk : m.ratingKey = some rk)
    (ht : c.getMetadata rk = Probe.transient) :
    (mediaExistsInPlex (some c) pc m).existsInPlex = true ∧
    (mediaExistsInPlex (some c) pc m).preventSeasonSearch = true := by
  simp only [mediaExistsInPlex, hrk, plexTry_transient c _ rk pc ht]
  repeat' split
  all_goals exact ⟨by trivial, by trivial⟩

/-- The non-4K flags of `mediaExistsInSonarr` are those of the server loop. -/
theorem mediaExistsInSonarr_fields (servers : List SonarrServer) (sc : SonarrCache)
    (m : Media) :
    (mediaExistsInSonarr servers sc m).existsInSonarr =
      (sonarrPass servers sc m).existsInSonarr ∧
    (mediaExistsInSonarr servers sc m).preventSeasonSearch =
      (sonarrPass servers sc m).preventSeasonSearch := by
  simp only [mediaExistsInSonarr]
  exact ⟨by trivial, by trivial⟩

/-- The non-4K projection (season number and non-4K status) of a season list. -/
def nonFourkView (seasons : List Season) : List (Nat × MediaStatus) :=
  seasons.map (fun s => (s.seasonNumber, s.status))

/-- When the non-4K season verdict is true, `seasonUpdater` preserves the
season's number and non-4K status, and either leaves the database alone or
saves the media with the same item status and the season list
`pre ++ updated :: rest` (a possible 4K-side change only). -/
theorem seasonUpdater_preserve_nonfourk (m : Media) (pre : List Season) (s : Season)
    (rest : List Season) (db : Db) (ex ex4 : Bool) (hex : ex = true) :
    (seasonUpdater m pre s rest db ex ex4).1.seasonNumber = s.seasonNumber ∧
    (seasonUpdater m pre s rest db ex ex4).1.status = s.status ∧
    ((seasonUpdater m pre s rest db ex ex4).2.1.media.status = db.media.status ∧
       (seasonUpdater m pre s rest db ex ex4).2.1.media.seasons = db.media.seasons ∨
     (seasonUpdater m pre s rest db ex ex4).2.1.media.status = m.status ∧
       (seasonUpdater m pre s rest db ex ex4).2.1.media.seasons =
         pre ++ (seasonUpdater m pre s rest db ex ex4).1 :: rest) := by
  subst hex
  simp only [seasonUpdater, Bool.not_true, Bool.and_false, Bool.false_and,
    Bool.false_eq_true, if_false, Bool.false_or]
  repeat' split
  all_goals simp_all

/-- Under a season map that is true on every season whose non-4K status is
available, the season loop preserves the stored item non-4K status and the
non-4K view of both the stored and the in-memory season lists. -/
theorem seasonLoop_preserve_nonfourk (agg : TvAggregate) (m : Media) :
    ∀ (rest pre : List Season) (db : Db) (del : List SeasonRequest),
      (∀ s ∈ rest, isAvailableStatus s.status = true →
        agg.seasonMap s.seasonNumber = true) →
      db.media.status = m.status →
      nonFourkView db.media.seasons = nonFourkView m.seasons →
      nonFourkView (pre ++ rest) = nonFourkView m.seasons →
      (seasonLoop agg m pre rest db del).2.1.media.status = m.status ∧
      nonFourkView (seasonLoop agg m pre rest db del).2.1.media.seasons =
        nonFourkView m.seasons ∧
      nonFourkView (seasonLoop agg m pre rest db del).1 = nonFourkView m.seasons
  | [], pre, db, del, _, hdb, hdbs, hpre => by
    simp only [seasonLoop]
    exact ⟨hdb, hdbs, by simpa using hpre⟩
  | s :: rest, pre, db, del, hm, hdb, hdbs, hpre => by
    simp only [seasonLoop]
    by_cases hav : isAvailableStatus s.status = true
    · have hex : agg.seasonMap s.seasonNumber = true :=
        hm s (List.mem_cons_self _ _) hav
      have hp := seasonUpdater_preserve_nonfourk m pre s rest db
        (agg.seasonMap s.seasonNumber) (agg.seasonMap4k s.seasonNumber) hex
      have hview : nonFourkView (pre ++
          (seasonUpdater m pre s rest db (agg.seasonMap s.seasonNumber)
            (agg.seasonMap4k s.seasonNumber)).1 :: rest) = nonFourkView m.seasons := by
        simp only [nonFourkView, List.map_append, List.map_cons] at hpre ⊢
        rw [hp.1, hp.2.1]
        exact hpre
      split
      · refine seasonLoop_preserve_nonfourk agg m rest _ _ _
          (fun x hx h => hm x (List.mem_cons_of_mem _ hx) h) ?_ ?_ ?_
        · rcases hp.2.2 with ⟨h1, _⟩ | ⟨h1, _⟩
          · rw [h1]; exact hdb
          · exact h1
        · rcases hp.2.2 with ⟨_, h2⟩ | ⟨_, h2⟩
          · rw [h2]; exact hdbs
          · rw [h2]; exact hview
        · simpa using hview
      · refine seasonLoop_preserve_nonfourk agg m rest _ _ _
          (fun x hx h => hm x (List.mem_cons_of_mem _ hx) h) hdb hdbs ?_
        simpa using hpre
    · have hgate : ((!agg.seasonMap s.seasonNumber && isAvailableStatus s.status) ||
          (!agg.seasonMap4k s.seasonNumber && isAvailableStatus s.status)) = false := by
        rcases Bool.eq_false_iff.mpr hav with h
        have hb : isAvailableStatus s.status = false := by
          revert hav
          cases isAvailableStatus s.status <;> simp
        simp [hb]
      rw [hgate]
      simp only [Bool.false_eq_true, if_false]
      refine seasonLoop_preserve_nonfourk agg m rest _ _ _
        (fun x hx h => hm x (List.mem_cons_of_mem _ hx) h) hdb hdbs ?_
      simpa using hpre

/-! ## C3 (amended) -/

/-- **C3** (amended): if every probe issued for the non-4K tier returns a
transient (non-404) error and at least one such probe was issued, the item's
non-4K existence verdict is true; and provided the same sources' 4K probes
did not also all fail (which would skip the per-season maps entirely and let
season verdicts default to false), no non-4K status change occurs — the
stored item status and the non-4K status of every season are unchanged by
the pass. -/
theorem C3_amended_transient_nonfourk (env : Env) (pc : PlexCache) (sc : SonarrCache)
    (db : Db)
    (htv : db.media.mediaType = MediaType.tv)
    (hson : ∀ s ∈ env.sonarrServers, s.is4k = false →
      ∀ id, db.media.externalServiceId = some id → s.getSeriesById id = Probe.transient)
    (hplex : ∀ c, env.plexClient = some c →
      ∀ rk, db.media.ratingKey = some rk → c.getMetadata rk = Probe.transient)
    (hissued : ((∃ id, db.media.externalServiceId = some id) ∧
                (∃ s ∈ env.sonarrServers, s.is4k = false)) ∨
               ((∃ rk, db.media.ratingKey = some rk) ∧ (∃ c, env.plexClient = some c)))
    (hnsson : (sonarrPass env.sonarrServers sc db.media).preventSeasonSearch4k = false)
    (hnsplex : (mediaExistsInPlex env.plexClient pc db.media).preventSeasonSearch4k = false)
    (hnd : (db.media.seasons.map Season.seasonNumber).Nodup) :
    tierOf (itemVerdicts env pc sc db.media) false = true ∧
    (processMedia env pc sc db).db.media.status = db.media.status ∧
    nonFourkView (processMedia env pc sc db).db.media.seasons =
      nonFourkView db.media.seasons := by
  -- the item verdict and one source's prevent flag, from the failing probes
  have hagg : (tvAggregate env pc sc db.media).showExists = true := by
    simp only [tvAggregate]
    rcases hissued with ⟨⟨id, hid⟩, ⟨sv, hsv, h4⟩⟩ | ⟨⟨rk, hrk⟩, ⟨c, hc⟩⟩
    · have hany : env.sonarrServers.any (fun s => !s.is4k) = true :=
        List.any_eq_true.mpr ⟨sv, hsv, by simp [h4]⟩
      have hf := sonarr_fold_transient_nonfourk db.media id hid env.sonarrServers
        { existsInSonarr := false, existsInSonarr4k := false
          preventSeasonSearch := false, preventSeasonSearch4k := false, cache := sc }
        (fun s hs h4' => hson s hs h4' id hid)
      have he : (sonarrPass env.sonarrServers sc db.media).existsInSonarr = true := by
        show (List.foldl (sonarrStep db.media) _ env.sonarrServers).existsInSonarr = true
        rw [hf.1, hany]
        simp
      rw [(mediaExistsInSonarr_fields env.sonarrServers sc db.media).1, he]
      simp
    · rw [hc]
      have hp := mediaExistsInPlex_transient c pc db.media rk hrk
        (hplex c hc rk hrk)
      rw [hp.1]
      simp
  -- the per-season non-4K verdict is true for every eligible season
  have hmap : ∀ s ∈ db.media.seasons, isAvailableStatus s.status = true →
      (tvAggregate env pc sc db.media).seasonMap s.seasonNumber = true := by
    intro s hmem hav
    rcases hissued with ⟨⟨id, hid⟩, ⟨sv, hsv, h4⟩⟩ | ⟨⟨rk, hrk⟩, ⟨c, hc⟩⟩
    · have hany : env.sonarrServers.any (fun s => !s.is4k) = true :=
        List.any_eq_true.mpr ⟨sv, hsv, by simp [h4]⟩
      have hf := sonarr_fold_transient_nonfourk db.media id hid env.sonarrServers
        { existsInSonarr := false, existsInSonarr4k := false
          preventSeasonSearch := false, preventSeasonSearch4k := false, cache := sc }
        (fun s hs h4' => hson s hs h4' id hid)
      have hprev : (sonarrPass env.sonarrServers sc db.media).preventSeasonSearch = true := by
        show (List.foldl (sonarrStep db.media) _ env.sonarrServers).preventSeasonSearch = true
        rw [hf.2, hany]
        simp
      have hns : (!(sonarrPass env.sonarrServers sc db.media).preventSeasonSearch ||
          !(sonarrPass env.sonarrServers sc db.media).preventSeasonSearch4k) = true := by
        rw [hnsson]
        simp
      have hchar := mediaExistsInSonarr_seasonMap env.sonarrServers sc db.media s hmem hnd hns
      have hval : (seasonExistsInSonarr db.media s
          (sonarrPass env.sonarrServers sc db.media).preventSeasonSearch
          (sonarrPass env.sonarrServers sc db.media).preventSeasonSearch4k
          (sonarrPass env.sonarrServers sc db.media).cache).1 = true := by
        simp [seasonExistsInSonarr, hid, hav, hprev]
      simp only [tvAggregate]
      rw [hchar.1, hval]
      simp
    · rw [hc] at hnsplex
      have hp := mediaExistsInPlex_transient c pc db.media rk hrk (hplex c hc rk hrk)
      have hns : (!(mediaExistsInPlex (some c) pc db.media).preventSeasonSearch ||
          !(mediaExistsInPlex (some c) pc db.media).preventSeasonSearch4k) = true := by
        rw [hnsplex]
        simp
      have hchar := mediaExistsInPlex_seasonMap (some c) pc db.media s htv hmem hnd hns
      have hval : (seasonExistsInPlex db.media s
          (mediaExistsInPlex (some c) pc db.media).preventSeasonSearch
          (mediaExistsInPlex (some c) pc db.media).preventSeasonSearch4k
          (mediaExistsInPlex (some c) pc db.media).cache).1 = true := by
        simp [seasonExistsInPlex, hrk, hav, hp.2]
      simp only [tvAggregate]
      rw [hc, hchar.1, hval]
      simp
  -- push the preservation through the loop and the final updater
  have hloop := seasonLoop_preserve_nonfourk (tvAggregate env pc sc db.media) db.media
    db.media.seasons [] db [] hmap rfl rfl (by simp)
  constructor
  · simp only [itemVerdicts, htv, tierOf]
    exact hagg
  · simp only [processMedia, htv, processTv, hagg]
    split
    · constructor
      · rw [mediaUpdater_mem_eq_db, mediaUpdater_status_preserved]
        exact Or.inr rfl
      · rw [mediaUpdater_mem_eq_db, mediaUpdater_seasons]
        exact hloop.2.2

    · exact ⟨hloop.1, hloop.2.1⟩

/-- Witness for C3 (amended): one non-4K Sonarr server failing transiently,
no Plex client, no 4K references; the AVAILABLE show and its AVAILABLE season
are left untouched on the non-4K tier. -/
theorem C3_amended_transient_nonfourk_witness :
    tierOf (itemVerdicts
      ⟨none, [], [sonarrServerTransient]⟩ emptyPlexCache emptySonarrCache
      { baseMedia with
          mediaType := MediaType.tv
          status := MediaStatus.AVAILABLE
          externalServiceId := some 10
          seasons := [⟨1, MediaStatus.AVAILABLE, MediaStatus.UNKNOWN⟩] }) false = true ∧
    (processMedia ⟨none, [], [sonarrServerTransient]⟩ emptyPlexCache emptySonarrCache
      ⟨{ baseMedia with
          mediaType := MediaType.tv
          status := MediaStatus.AVAILABLE
          externalServiceId := some 10
          seasons := [⟨1, MediaStatus.AVAILABLE, MediaStatus.UNKNOWN⟩] }, [], []⟩
      ).db.media.status =
      ({ baseMedia with
          mediaType := MediaType.tv
          status := MediaStatus.AVAILABLE
          externalServiceId := some 10
          seasons := [⟨1, MediaStatus.AVAILABLE, MediaStatus.UNKNOWN⟩] } : Media).status ∧
    nonFourkView (processMedia ⟨none, [], [sonarrServerTransient]⟩ emptyPlexCache
      emptySonarrCache
      ⟨{ baseMedia with
          mediaType := MediaType.tv
          status := MediaStatus.AVAILABLE
          externalServiceId := some 10
          seasons := [⟨1, MediaStatus.AVAILABLE, MediaStatus.UNKNOWN⟩] }, [], []⟩
      ).db.media.seasons =
      nonFourkView [⟨1, MediaStatus.AVAILABLE, MediaStatus.UNKNOWN⟩] :=
  C3_amended_transient_nonfourk ⟨none, [], [sonarrServerTransient]⟩ emptyPlexCache
    emptySonarrCache
    ⟨{ baseMedia with
        mediaType := MediaType.tv
        status := MediaStatus.AVAILABLE
        externalServiceId := some 10
        seasons := [⟨1, MediaStatus.AVAILABLE, MediaStatus.UNKNOWN⟩] }, [], []⟩
    rfl
    (by intro s hs h4 id hid; simp [List.mem_singleton] at hs; subst hs; rfl)
    (by intro c hc; cases hc)
    (Or.inl ⟨⟨10, rfl⟩, ⟨sonarrServerTransient, by simp, rfl⟩⟩)
    (by decide) (by decide) (by decide)

/-! ## One-directional transition predicates (towards C9) -/

/-- An item-status evolution the engine may produce on the stored row over the
pass: unchanged, an availability loss to UNKNOWN/PENDING/PROCESSING, or the
cascade AVAILABLE → PARTIALLY_AVAILABLE. -/
def ItemTransOk (old new : MediaStatus) : Prop :=
  new = old ∨
  (isAvailableStatus old = true ∧
    (new = MediaStatus.UNKNOWN ∨ new = MediaStatus.PENDING ∨ new = MediaStatus.PROCESSING)) ∨
  (old = MediaStatus.AVAILABLE ∧ new = MediaStatus.PARTIALLY_AVAILABLE)

/-- A season-status evolution the engine may produce: unchanged, or an
availability loss to UNKNOWN. -/
def SeasonTransOk (old new : MediaStatus) : Prop :=
  new = old ∨ (isAvailableStatus old = true ∧ new = MediaStatus.UNKNOWN)

/-- Pairwise allowed evolution of a season list (numbers kept, each tier's
status evolving by `SeasonTransOk`). -/
def SeasonsOk (olds news : List Season) : Prop :=
  List.Forall₂ (fun s s' => s'.seasonNumber = s.seasonNumber ∧
    SeasonTransOk s.status s'.status ∧ SeasonTransOk s.status4k s'.status4k) olds news

/-- `SeasonsOk` is reflexive. -/
theorem SeasonsOk.refl (l : List Season) : SeasonsOk l l := by
  rw [SeasonsOk, List.forall₂_same]
  exact fun x _ => ⟨rfl, Or.inl rfl, Or.inl rfl⟩

/-- `isAvailableStatus` on the UNKNOWN constructor. -/
theorem isAvailableStatus_UNKNOWN : isAvailableStatus MediaStatus.UNKNOWN = false := rfl

/-- The season written by `seasonUpdater` keeps its number and evolves each
tier's status one-directionally. -/
theorem seasonUpdater_season_trans (m : Media) (pre : List Season) (s : Season)
    (rest : List Season) (db : Db) (ex ex4 : Bool) :
    (seasonUpdater m pre s rest db ex ex4).1.seasonNumber = s.seasonNumber ∧
    SeasonTransOk s.status (seasonUpdater m pre s rest db ex ex4).1.status ∧
    SeasonTransOk s.status4k (seasonUpdater m pre s rest db ex ex4).1.status4k := by
  cases hA : isAvailableStatus s.status <;> cases hB : isAvailableStatus s.status4k <;>
    cases ex <;> cases ex4 <;>
      simp [seasonUpdater, hA, hB, SeasonTransOk, isAvailableStatus_UNKNOWN] <;>
        (repeat' split) <;> simp_all [SeasonTransOk, isAvailableStatus_UNKNOWN]

/-- The stored media row after `seasonUpdater` keeps each tier's item status
at the incoming stored value, or rewrites it to the in-memory value, or
applies the cascade; the stored season list is either untouched or the saved
`pre ++ updated :: rest`. -/
theorem seasonUpdater_db_trans (m : Media) (pre : List Season) (s : Season)
    (rest : List Season) (db : Db) (ex ex4 : Bool) :
    ((seasonUpdater m pre s rest db ex ex4).2.1.media.status = db.media.status ∨
     (seasonUpdater m pre s rest db ex ex4).2.1.media.status = m.status ∨
     (m.status = MediaStatus.AVAILABLE ∧
       (seasonUpdater m pre s rest db ex ex4).2.1.media.status =
         MediaStatus.PARTIALLY_AVAILABLE)) ∧
    ((seasonUpdater m pre s rest db ex ex4).2.1.media.status4k = db.media.status4k ∨
     (seasonUpdater m pre s rest db ex ex4).2.1.media.status4k = m.status4k ∨
     (m.status4k = MediaStatus.AVAILABLE ∧
       (seasonUpdater m pre s rest db ex ex4).2.1.media.status4k =
         MediaStatus.PARTIALLY_AVAILABLE)) ∧
    ((seasonUpdater m pre s rest db ex ex4).2.1.media.seasons = db.media.seasons ∨
     (seasonUpdater m pre s rest db ex ex4).2.1.media.seasons =
       pre ++ (seasonUpdater m pre s rest db ex ex4).1 :: rest) := by
  cases hA : isAvailableStatus s.status <;> cases hB : isAvailableStatus s.status4k <;>
    cases ex <;> cases ex4 <;>
      by_cases hmA : m.status = MediaStatus.AVAILABLE <;>
        by_cases hm4 : m.status4k = MediaStatus.AVAILABLE <;>
          simp [seasonUpdater, hA, hB, hmA, hm4, isAvailableStatus_UNKNOWN] <;>
            (repeat' split) <;> simp_all [isAvailableStatus_UNKNOWN]

/-- Per-tier one-directional evolution of the stored item statuses under
`mediaUpdater`, with the stored season list equal to the in-memory one. -/
theorem mediaUpdater_itemTrans (m : Media) (db : Db) (e e4 : Bool) :
    ItemTransOk m.status (mediaUpdater m db e e4).db.media.status ∧
    ItemTransOk m.status4k (mediaUpdater m db e e4).db.media.status4k := by
  rw [mediaUpdater_mem_eq_db]
  constructor
  · by_cases ha : isAvailableStatus m.status = true
    · by_cases he : e = false
      · refine Or.inr (Or.inl ⟨ha, ?_⟩)
        rw [mediaUpdater_status_downgrade m db e e4 ha he]
        split
        · exact findMediaStatus_mem _ _
        · exact Or.inl rfl
      · exact Or.inl (mediaUpdater_status_preserved m db e e4
          (Or.inr (by revert he; cases e <;> simp)))
    · exact Or.inl (mediaUpdater_status_preserved m db e e4
        (Or.inl (by revert ha; cases h : isAvailableStatus m.status <;> simp)))
  · by_cases ha : isAvailableStatus m.status4k = true
    · by_cases he : e4 = false
      · refine Or.inr (Or.inl ⟨ha, ?_⟩)
        rw [mediaUpdater_status4k_downgrade m db e e4 ha he]
        split
        · exact findMediaStatus_mem _ _
        · exact Or.inl rfl
      · exact Or.inl (mediaUpdater_status4k_preserved m db e e4
          (Or.inr (by revert he; cases e4 <;> simp)))
    · exact Or.inl (mediaUpdater_status4k_preserved m db e e4
        (Or.inl (by revert ha; cases h : isAvailableStatus m.status4k <;> simp)))

/-- The season loop evolves the stored item statuses only along identity or
cascade and every season status one-directionally, on both the stored and the
in-memory season lists. -/
theorem seasonLoop_trans (agg : TvAggregate) (m : Media) :
    ∀ (rest pre : List Season) (db : Db) (del : List SeasonRequest),
      (db.media.status = m.status ∨
        (m.status = MediaStatus.AVAILABLE ∧
          db.media.status = MediaStatus.PARTIALLY_AVAILABLE)) →
      (db.media.status4k = m.status4k ∨
        (m.status4k = MediaStatus.AVAILABLE ∧
          db.media.status4k = MediaStatus.PARTIALLY_AVAILABLE)) →
      (∃ pre0, m.seasons = pre0 ++ rest ∧ SeasonsOk pre0 pre) →
      SeasonsOk m.seasons db.media.seasons →
      ((seasonLoop agg m pre rest db del).2.1.media.status = m.status ∨
        (m.status = MediaStatus.AVAILABLE ∧
          (seasonLoop agg m pre rest db del).2.1.media.status =
            MediaStatus.PARTIALLY_AVAILABLE)) ∧
      ((seasonLoop agg m pre rest db del).2.1.media.status4k = m.status4k ∨
        (m.status4k = MediaStatus.AVAILABLE ∧
          (seasonLoop agg m pre rest db del).2.1.media.status4k =
            MediaStatus.PARTIALLY_AVAILABLE)) ∧
      SeasonsOk m.seasons (seasonLoop agg m pre rest db del).2.1.media.seasons ∧
      SeasonsOk m.seasons (seasonLoop agg m pre rest db del).1
  | [], pre, db, del, h1, h2, hpre, hdbs => by
    simp only [seasonLoop]
    obtain ⟨pre0, heq, hok⟩ := hpre
    rw [List.append_nil] at heq
    subst heq
    exact ⟨h1, h2, hdbs, hok⟩
  | s :: rest, pre, db, del, h1, h2, hpre, hdbs => by
    simp only [seasonLoop]
    obtain ⟨pre0, hAeq, hok⟩ := hpre
    have hself : SeasonsOk [s] [s] := SeasonsOk.refl [s]
    split
    · have hstr := seasonUpdater_season_trans m pre s rest db
        (agg.seasonMap s.seasonNumber) (agg.seasonMap4k s.seasonNumber)
      have hdbt := seasonUpdater_db_trans m pre s rest db
        (agg.seasonMap s.seasonNumber) (agg.seasonMap4k s.seasonNumber)
      have hone : SeasonsOk [s]
          [(seasonUpdater m pre s rest db (agg.seasonMap s.seasonNumber)
              (agg.seasonMap4k s.seasonNumber)).1] :=
        List.Forall₂.cons ⟨hstr.1, hstr.2.1, hstr.2.2⟩ List.Forall₂.nil
      have hok' : SeasonsOk (pre0 ++ [s])
          (pre ++ [(seasonUpdater m pre s rest db (agg.seasonMap s.seasonNumber)
              (agg.seasonMap4k s.seasonNumber)).1]) :=
        List.rel_append hok hone
      have hOkSaved : SeasonsOk m.seasons
          (pre ++ (seasonUpdater m pre s rest db (agg.seasonMap s.seasonNumber)
              (agg.seasonMap4k s.seasonNumber)).1 :: rest) := by
        rw [hAeq]
        have : SeasonsOk (s :: rest)
            ((seasonUpdater m pre s rest db (agg.seasonMap s.seasonNumber)
                (agg.seasonMap4k s.seasonNumber)).1 :: rest) :=
          List.Forall₂.cons ⟨hstr.1, hstr.2.1, hstr.2.2⟩ (SeasonsOk.refl rest)
        exact List.rel_append hok this
      refine seasonLoop_trans agg m rest _ _ _ ?_ ?_
        ⟨pre0 ++ [s], by rw [hAeq]; simp, hok'⟩ ?_
      · rcases hdbt.1 with h | h | h
        · rw [h]; exact h1
        · exact Or.inl h
        · exact Or.inr h
      · rcases hdbt.2.1 with h | h | h
        · rw [h]; exact h2
        · exact Or.inl h
        · exact Or.inr h
      · rcases hdbt.2.2 with h | h
        · rw [h]; exact hdbs
        · rw [h]; exact hOkSaved
    · refine seasonLoop_trans agg m rest _ _ _ h1 h2
        ⟨pre0 ++ [s], by rw [hAeq]; simp, List.rel_append hok hself⟩ hdbs

/-! ## C9 (amended) -/

/-- **C9** (amended): each in-memory status assignment is one-directional
(availability loss to UNKNOWN/PENDING/PROCESSING for items, to UNKNOWN for
seasons, plus the AVAILABLE → PARTIALLY_AVAILABLE cascade), and comparing the
stored record after the pass with the one before, every item and season
status evolved along exactly those transitions; statuses already in
UNKNOWN/PENDING/PROCESSING are never changed.  (Intra-pass store writes are
not one-directional: a later whole-record save may overwrite the cascade's
stored PARTIALLY_AVAILABLE with the stale in-memory AVAILABLE — see the
counterexample.) -/
theorem C9_amended_one_directional (env : Env) (pc : PlexCache) (sc : SonarrCache)
    (db : Db) :
    ItemTransOk db.media.status (processMedia env pc sc db).db.media.status ∧
    ItemTransOk db.media.status4k (processMedia env pc sc db).db.media.status4k ∧
    SeasonsOk db.media.seasons (processMedia env pc sc db).db.media.seasons := by
  cases hmt : db.media.mediaType with
  | movie =>
    simp only [processMedia, hmt, processMovie]
    split
    · refine ⟨(mediaUpdater_itemTrans _ _ _ _).1, (mediaUpdater_itemTrans _ _ _ _).2, ?_⟩
      rw [mediaUpdater_mem_eq_db, mediaUpdater_seasons]
      exact SeasonsOk.refl _
    · exact ⟨Or.inl rfl, Or.inl rfl, SeasonsOk.refl _⟩
  | tv =>
    simp only [processMedia, hmt, processTv]
    have hloop := seasonLoop_trans (tvAggregate env pc sc db.media) db.media
      db.media.seasons [] db [] (Or.inl rfl) (Or.inl rfl)
      ⟨[], rfl, List.Forall₂.nil⟩ (SeasonsOk.refl _)
    split
    · refine ⟨?_, ?_, ?_⟩
      · exact (mediaUpdater_itemTrans _ _ _ _).1
      · exact (mediaUpdater_itemTrans _ _ _ _).2
      · rw [mediaUpdater_mem_eq_db, mediaUpdater_seasons]
        exact hloop.2.2.2
    · refine ⟨?_, ?_, hloop.2.2.1⟩
      · rcases hloop.1 with h | h
        · exact Or.inl h
        · exact Or.inr (Or.inr h)
      · rcases hloop.2.1 with h | h
        · exact Or.inl h
        · exact Or.inr (Or.inr h)

/-! ## C8: season cascade -/

/-- `isAvailableStatus` on the AVAILABLE constructor. -/
theorem isAvailableStatus_AVAILABLE : isAvailableStatus MediaStatus.AVAILABLE = true := rfl

/-- C8 input show: non-4K AVAILABLE with two AVAILABLE seasons, tracked by one
non-4K Sonarr server. -/
def mediaC8 : Media :=
  { baseMedia with
    mediaType := MediaType.tv
    status := MediaStatus.AVAILABLE
    externalServiceId := some 10
    seasons := [⟨1, MediaStatus.AVAILABLE, MediaStatus.UNKNOWN⟩,
                ⟨2, MediaStatus.AVAILABLE, MediaStatus.UNKNOWN⟩] }

/-- C8 environment: Sonarr finds the series with files overall, season 1 with
zero episode files and season 2 with three. -/
def envC8 : Env :=
  { plexClient := none, radarrServers := []
    sonarrServers := [sonarrServerFound ⟨5, [⟨1, some 0⟩, ⟨2, some 3⟩]⟩] }

/-- Step 1 of the C8 scenario: `seasonUpdater` on the lost season downgrades
it to UNKNOWN, stores the show as PARTIALLY_AVAILABLE with the updated season
list, and removes exactly the non-4K season-1 requests. -/
theorem seasonUpdaterC8_step1 (srs : List SeasonRequest) :
    (seasonUpdater mediaC8 [] ⟨1, MediaStatus.AVAILABLE, MediaStatus.UNKNOWN⟩
      [⟨2, MediaStatus.AVAILABLE, MediaStatus.UNKNOWN⟩]
      ⟨mediaC8, [], srs⟩ false false).1 =
      ⟨1, MediaStatus.UNKNOWN, MediaStatus.UNKNOWN⟩ ∧
    (seasonUpdater mediaC8 [] ⟨1, MediaStatus.AVAILABLE, MediaStatus.UNKNOWN⟩
      [⟨2, MediaStatus.AVAILABLE, MediaStatus.UNKNOWN⟩]
      ⟨mediaC8, [], srs⟩ false false).2.1.media =
      { mediaC8 with
          status := MediaStatus.PARTIALLY_AVAILABLE
          seasons := [⟨1, MediaStatus.UNKNOWN, MediaStatus.UNKNOWN⟩,
                      ⟨2, MediaStatus.AVAILABLE, MediaStatus.UNKNOWN⟩] } ∧
    (seasonUpdater mediaC8 [] ⟨1, MediaStatus.AVAILABLE, MediaStatus.UNKNOWN⟩
      [⟨2, MediaStatus.AVAILABLE, MediaStatus.UNKNOWN⟩]
      ⟨mediaC8, [], srs⟩ false false).2.2 =
      srs.filter (fun sr => !sr.is4k && (sr.mediaId = 1 && sr.seasonNumber = 1)) ∧
    ∀ sr ∈ srs, (sr.is4k = true ∨ ¬sr.seasonNumber = 1) →
      sr ∈ (seasonUpdater mediaC8 [] ⟨1, MediaStatus.AVAILABLE, MediaStatus.UNKNOWN⟩
        [⟨2, MediaStatus.AVAILABLE, MediaStatus.UNKNOWN⟩]
        ⟨mediaC8, [], srs⟩ false false).2.1.seasonRequests := by
  have hid : mediaC8.id = 1 := rfl
  have hstA : mediaC8.status = MediaStatus.AVAILABLE := rfl
  have hst4 : mediaC8.status4k = MediaStatus.UNKNOWN := rfl
  simp only [seasonUpdater, hid, hstA, hst4, isAvailableStatus_AVAILABLE,
    isAvailableStatus_UNKNOWN, Bool.not_false, Bool.and_true, Bool.true_and,
    Bool.and_false, Bool.false_and, Bool.or_false, Bool.false_or, if_true,
    Bool.false_eq_true, if_false, List.filter_filter, eq_self_iff_true,
    reduceCtorEq, decide_True, decide_False]
  refine ⟨?_, ?_, ?_, ?_⟩
  · split <;> rfl
  · split <;> rfl
  · split
    · rfl
    · next hne =>
      have : (List.filter (fun sr => !sr.is4k &&
          (decide (sr.mediaId = 1) && decide (sr.seasonNumber = 1))) srs).isEmpty = true := by
        revert hne
        cases (List.filter (fun sr => !sr.is4k &&
          (decide (sr.mediaId = 1) && decide (sr.seasonNumber = 1))) srs).isEmpty <;> simp
      rw [List.isEmpty_iff] at this
      rw [this]
  · intro sr hmem hside
    split
    · simp only [List.mem_filter]
      refine ⟨hmem, ?_⟩
      simp only [Bool.not_eq_true', Bool.and_eq_true, decide_eq_true_eq]
      rcases hside with h | h
      · rw [List.contains_eq_any_beq]
        simp only [Bool.not_eq_true', List.any_eq_false]
        intro x hx
        simp only [List.mem_filter, Bool.and_eq_true, Bool.not_eq_true'] at hx
        intro hbeq
        have hxe : sr = x := by simpa using hbeq
        subst hxe
        rw [h] at hx
        simp at hx
      · rw [List.contains_eq_any_beq]
        simp only [Bool.not_eq_true', List.any_eq_false]
        intro x hx
        simp only [List.mem_filter, Bool.and_eq_true, decide_eq_true_eq] at hx
        intro hbeq
        have hxe : sr = x := by simpa using hbeq
        subst hxe
        exact h hx.2.2.2
    · exact hmem

/-- Step 2 of the C8 scenario: a season that still exists on the non-4K tier
and has no available 4K status is returned unchanged with no writes. -/
theorem seasonUpdaterC8_step2 (pre : List Season) (db : Db) :
    seasonUpdater mediaC8 pre ⟨2, MediaStatus.AVAILABLE, MediaStatus.UNKNOWN⟩ [] db
      true false =
    (⟨2, MediaStatus.AVAILABLE, MediaStatus.UNKNOWN⟩, db, []) := rfl

/-- **C8**: for the show of `mediaC8` (non-4K AVAILABLE, two AVAILABLE
seasons) where exactly season 1's non-4K existence verdict is false while the
show and season 2 still exist, one pass sets season 1 to UNKNOWN, stores the
show as PARTIALLY_AVAILABLE, deletes exactly the non-4K SeasonRequest rows of
season 1, and leaves season 2's status and every other season request (4K or
other seasons) untouched — for every season-request table. -/
theorem C8_season_cascade (srs : List SeasonRequest) :
    (processMedia envC8 emptyPlexCache emptySonarrCache
      ⟨mediaC8, [], srs⟩).db.media.status = MediaStatus.PARTIALLY_AVAILABLE ∧
    (processMedia envC8 emptyPlexCache emptySonarrCache
      ⟨mediaC8, [], srs⟩).db.media.seasons =
      [⟨1, MediaStatus.UNKNOWN, MediaStatus.UNKNOWN⟩,
       ⟨2, MediaStatus.AVAILABLE, MediaStatus.UNKNOWN⟩] ∧
    (processMedia envC8 emptyPlexCache emptySonarrCache
      ⟨mediaC8, [], srs⟩).deletedSeasonRequests =
      srs.filter (fun sr => !sr.is4k && (sr.mediaId = 1 && sr.seasonNumber = 1)) ∧
    ∀ sr ∈ srs, (sr.is4k = true ∨ ¬sr.seasonNumber = 1) →
      sr ∈ (processMedia envC8 emptyPlexCache emptySonarrCache
        ⟨mediaC8, [], srs⟩).db.seasonRequests := by
  have hU := seasonUpdaterC8_step1 srs
  have hm1 : (tvAggregate envC8 emptyPlexCache emptySonarrCache mediaC8).seasonMap 1 =
      false := by decide
  have hm41 : (tvAggregate envC8 emptyPlexCache emptySonarrCache mediaC8).seasonMap4k 1 =
      false := by decide
  have hm2 : (tvAggregate envC8 emptyPlexCache emptySonarrCache mediaC8).seasonMap 2 =
      true := by decide
  have hm42 : (tvAggregate envC8 emptyPlexCache emptySonarrCache mediaC8).seasonMap4k 2 =
      false := by decide
  have hsE : (tvAggregate envC8 emptyPlexCache emptySonarrCache mediaC8).showExists =
      true := by decide
  have hsE4 : (tvAggregate envC8 emptyPlexCache emptySonarrCache mediaC8).showExists4k =
      false := by decide
  have hseas : mediaC8.seasons = [⟨1, MediaStatus.AVAILABLE, MediaStatus.UNKNOWN⟩,
      ⟨2, MediaStatus.AVAILABLE, MediaStatus.UNKNOWN⟩] := rfl
  have hstA : mediaC8.status = MediaStatus.AVAILABLE := rfl
  have hst4 : mediaC8.status4k = MediaStatus.UNKNOWN := rfl
  have hmt : mediaC8.mediaType = MediaType.tv := rfl
  simp only [processMedia, processTv, seasonLoop, hmt, hseas, hm1, hm2, hm41, hm42, hsE,
    hsE4, hstA, hst4, seasonUpdaterC8_step2, isAvailableStatus_AVAILABLE,
    isAvailableStatus_UNKNOWN, Bool.not_false, Bool.not_true, Bool.and_true,
    Bool.true_and, Bool.and_false, Bool.false_and, Bool.or_false, Bool.false_or,
    Bool.or_true, Bool.true_or, if_true, Bool.false_eq_true, if_false,
    List.nil_append, List.append_nil]
  exact ⟨by rw [hU.2.1], by rw [hU.2.1], hU.2.2.1, hU.2.2.2⟩

/-- Witness for C8 at a concrete season-request table: one non-4K and one 4K
request for season 1, one non-4K request for season 2. -/
theorem C8_season_cascade_witness :
    (processMedia envC8 emptyPlexCache emptySonarrCache
      ⟨mediaC8, [], [⟨1, 1, false, 1⟩, ⟨2, 1, true, 1⟩, ⟨3, 1, false, 2⟩]⟩
      ).db.media.status = MediaStatus.PARTIALLY_AVAILABLE ∧
    (⟨2, 1, true, 1⟩ : SeasonRequest) ∈
      (processMedia envC8 emptyPlexCache emptySonarrCache
        ⟨mediaC8, [], [⟨1, 1, false, 1⟩, ⟨2, 1, true, 1⟩, ⟨3, 1, false, 2⟩]⟩
        ).db.seasonRequests :=
  ⟨(C8_season_cascade [⟨1, 1, false, 1⟩, ⟨2, 1, true, 1⟩, ⟨3, 1, false, 2⟩]).1,
   (C8_season_cascade [⟨1, 1, false, 1⟩, ⟨2, 1, true, 1⟩, ⟨3, 1, false, 2⟩]).2.2.2
     ⟨2, 1, true, 1⟩ (by simp) (Or.inl rfl)⟩
